import Mathlib

/-!
Enhanced SpeedStep driver `est_PM.c`.

A shallow embedding of the driver's catalogue (`freq_info` tables, `ESTprocs`),
of `findcpu` and of the sysctl handler `est_sysctl_mhz`, followed by the
properties of the frequency-control protocol.

Conventions of the embedding.
* C integers are `Nat` (unsigned) or `Int` (`int`); a conversion to a narrower
  unsigned type is an explicit `%`, and the `int` arithmetic of the macros is
  kept to 32 bits by `toI32`.
* An array is the list of its elements, terminator included.  A loop that
  would leave its array, or a write that would leave its buffer, has no
  defined result: the function returns `none`.
* `printf` output and the `tsleep` pause are not part of the modelled state.
-/

namespace EstPM

/-! ## Data types -/

/-- Struct `freq_info`: a frequency and how to get it (both fields `uint16_t`). -/
structure freq_info where
  MHz : Nat
  ID : Nat
  deriving DecidableEq

/-- Struct `cpu_info`: identifying characteristics of a processor and its
frequencies.  `vendor` and `freqtab` are pointers; `none` is `NULL`. -/
structure cpu_info where
  vendor : Option (List Char)
  ID : Nat
  BUSCLK : Nat
  freqtab : Option (List freq_info)
  deriving DecidableEq

/-- Conversion of an `int` to `uint16_t`. -/
def toU16 (x : Int) : Nat := (x % 65536).toNat

/-- Conversion of an `int` to `uint32_t`. -/
def toU32 (x : Int) : Nat := (x % 4294967296).toNat

/-- The result of an `int` operation, kept to 32 bits: a value out of range
wraps around in two's complement, which is what the compiled macro yields. -/
def toI32 (x : Int) : Int := (x + 2147483648) % 4294967296 - 2147483648

/-- Macro `ID16(MHz, mv, BUSCLK)`:
`( ((MHz / BUSCLK) << 8) + ((mv ? mv - 700 : 0) >> 4) )`, on `int` arguments,
every operation in 32-bit `int`. -/
def ID16 (MHz mv BUSCLK : Int) : Int :=
  toI32 (toI32 ((toI32 (Int.tdiv MHz BUSCLK)) <<< 8) +
    ((if mv ≠ 0 then toI32 (mv - 700) else 0) >>> 4))

/-- Macro `ID32(MHz_hi, mv_hi, MHz_lo, mv_lo, BUSCLK)`:
`( (ID16(MHz_lo, mv_lo, BUSCLK) << 16) + (ID16(MHz_hi, mv_hi, BUSCLK)) )`. -/
def ID32 (MHz_hi mv_hi MHz_lo mv_lo BUSCLK : Int) : Int :=
  toI32 (toI32 ((ID16 MHz_lo mv_lo BUSCLK) <<< 16) + (ID16 MHz_hi mv_hi BUSCLK))

/-- Macro `FREQ_INFO_100(MHz, mv)`: `{ MHz, ID16(MHz, mv, 100) }`, stored in
two `uint16_t` fields. -/
def FREQ_INFO_100 (MHz mv : Int) : freq_info :=
  { MHz := toU16 MHz, ID := toU16 (ID16 MHz mv 100) }

/-- Array `GenuineIntel`: `char GenuineIntel[12] = "GenuineIntel"`. -/
def GenuineIntel : List Char :=
  ['G', 'e', 'n', 'u', 'i', 'n', 'e', 'I', 'n', 't', 'e', 'l']

/-- Macro `INTEL_100(tab, zhi, vhi, zlo, vlo)`:
`{ GenuineIntel, ID32(zhi, vhi, zlo, vlo, 100), 100, tab }`. -/
def INTEL_100 (tab : List freq_info) (zhi vhi zlo vlo : Int) : cpu_info :=
  { vendor := some GenuineIntel, ID := toU32 (ID32 zhi vhi zlo vlo 100),
    BUSCLK := 100, freqtab := some tab }

/-! ## The catalogue -/

/-- Table `PM17_130`: 130nm 1.70GHz Pentium M. -/
def PM17_130 : List freq_info := [
  FREQ_INFO_100 1700 1484,
  FREQ_INFO_100 1400 1308,
  FREQ_INFO_100 1200 1228,
  FREQ_INFO_100 1000 1116,
  FREQ_INFO_100 800 1004,
  FREQ_INFO_100 600 956,
  FREQ_INFO_100 0 0
]

/-- Table `PM16_130`: 130nm 1.60GHz Pentium M. -/
def PM16_130 : List freq_info := [
  FREQ_INFO_100 1600 1484,
  FREQ_INFO_100 1400 1420,
  FREQ_INFO_100 1200 1276,
  FREQ_INFO_100 1000 1164,
  FREQ_INFO_100 800 1036,
  FREQ_INFO_100 600 956,
  FREQ_INFO_100 0 0
]

/-- Table `PM15_130`: 130nm 1.50GHz Pentium M. -/
def PM15_130 : List freq_info := [
  FREQ_INFO_100 1500 1484,
  FREQ_INFO_100 1400 1452,
  FREQ_INFO_100 1200 1356,
  FREQ_INFO_100 1000 1228,
  FREQ_INFO_100 800 1116,
  FREQ_INFO_100 600 956,
  FREQ_INFO_100 0 0
]

/-- Table `PM14_130`: 130nm 1.40GHz Pentium M. -/
def PM14_130 : List freq_info := [
  FREQ_INFO_100 1400 1484,
  FREQ_INFO_100 1200 1436,
  FREQ_INFO_100 1000 1308,
  FREQ_INFO_100 800 1180,
  FREQ_INFO_100 600 956,
  FREQ_INFO_100 0 0
]

/-- Table `PM13_130`: 130nm 1.30GHz Pentium M. -/
def PM13_130 : List freq_info := [
  FREQ_INFO_100 1300 1388,
  FREQ_INFO_100 1200 1356,
  FREQ_INFO_100 1000 1292,
  FREQ_INFO_100 800 1260,
  FREQ_INFO_100 600 956,
  FREQ_INFO_100 0 0
]

/-- Table `PM13_LV_130`: 130nm 1.30GHz Low Voltage Pentium M. -/
def PM13_LV_130 : List freq_info := [
  FREQ_INFO_100 1300 1180,
  FREQ_INFO_100 1200 1164,
  FREQ_INFO_100 1100 1100,
  FREQ_INFO_100 1000 1020,
  FREQ_INFO_100 900 1004,
  FREQ_INFO_100 800 988,
  FREQ_INFO_100 600 956,
  FREQ_INFO_100 0 0
]

/-- Table `PM12_LV_130`: 130 nm 1.20GHz Low Voltage Pentium M. -/
def PM12_LV_130 : List freq_info := [
  FREQ_INFO_100 1200 1180,
  FREQ_INFO_100 1100 1164,
  FREQ_INFO_100 1000 1100,
  FREQ_INFO_100 900 1020,
  FREQ_INFO_100 800 1004,
  FREQ_INFO_100 600 956,
  FREQ_INFO_100 0 0
]

/-- Table `PM11_LV_130`: 130 nm 1.10GHz Low Voltage Pentium M. -/
def PM11_LV_130 : List freq_info := [
  FREQ_INFO_100 1100 1180,
  FREQ_INFO_100 1000 1164,
  FREQ_INFO_100 900 1100,
  FREQ_INFO_100 800 1020,
  FREQ_INFO_100 600 956,
  FREQ_INFO_100 0 0
]

/-- Table `PM11_ULV_130`: 130 nm 1.10GHz Ultra Low Voltage Pentium M. -/
def PM11_ULV_130 : List freq_info := [
  FREQ_INFO_100 1100 1004,
  FREQ_INFO_100 1000 988,
  FREQ_INFO_100 900 972,
  FREQ_INFO_100 800 956,
  FREQ_INFO_100 600 844,
  FREQ_INFO_100 0 0
]

/-- Table `PM10_ULV_130`: 130 nm 1.00GHz Ultra Low Voltage Pentium M. -/
def PM10_ULV_130 : List freq_info := [
  FREQ_INFO_100 1000 1004,
  FREQ_INFO_100 900 988,
  FREQ_INFO_100 800 972,
  FREQ_INFO_100 600 844,
  FREQ_INFO_100 0 0
]

/-- Table `PM_765A_90`: 90 nm 2.10GHz Pentium M, VID #A. -/
def PM_765A_90 : List freq_info := [
  FREQ_INFO_100 2100 1340,
  FREQ_INFO_100 1800 1276,
  FREQ_INFO_100 1600 1228,
  FREQ_INFO_100 1400 1180,
  FREQ_INFO_100 1200 1132,
  FREQ_INFO_100 1000 1084,
  FREQ_INFO_100 800 1036,
  FREQ_INFO_100 600 988,
  FREQ_INFO_100 0 0
]

/-- Table `PM_765B_90`: 90 nm 2.10GHz Pentium M, VID #B. -/
def PM_765B_90 : List freq_info := [
  FREQ_INFO_100 2100 1324,
  FREQ_INFO_100 1800 1260,
  FREQ_INFO_100 1600 1212,
  FREQ_INFO_100 1400 1180,
  FREQ_INFO_100 1200 1132,
  FREQ_INFO_100 1000 1084,
  FREQ_INFO_100 800 1036,
  FREQ_INFO_100 600 988,
  FREQ_INFO_100 0 0
]

/-- Table `PM_765C_90`: 90 nm 2.10GHz Pentium M, VID #C. -/
def PM_765C_90 : List freq_info := [
  FREQ_INFO_100 2100 1308,
  FREQ_INFO_100 1800 1244,
  FREQ_INFO_100 1600 1212,
  FREQ_INFO_100 1400 1164,
  FREQ_INFO_100 1200 1116,
  FREQ_INFO_100 1000 1084,
  FREQ_INFO_100 800 1036,
  FREQ_INFO_100 600 988,
  FREQ_INFO_100 0 0
]

/-- Table `PM_765E_90`: 90 nm 2.10GHz Pentium M, VID #E. -/
def PM_765E_90 : List freq_info := [
  FREQ_INFO_100 2100 1356,
  FREQ_INFO_100 1800 1292,
  FREQ_INFO_100 1600 1244,
  FREQ_INFO_100 1400 1196,
  FREQ_INFO_100 1200 1148,
  FREQ_INFO_100 1000 1100,
  FREQ_INFO_100 800 1052,
  FREQ_INFO_100 600 988,
  FREQ_INFO_100 0 0
]

/-- Table `PM_755A_90`: 90 nm 2.00GHz Pentium M, VID #A. -/
def PM_755A_90 : List freq_info := [
  FREQ_INFO_100 2000 1340,
  FREQ_INFO_100 1800 1292,
  FREQ_INFO_100 1600 1244,
  FREQ_INFO_100 1400 1196,
  FREQ_INFO_100 1200 1148,
  FREQ_INFO_100 1000 1100,
  FREQ_INFO_100 800 1052,
  FREQ_INFO_100 600 988,
  FREQ_INFO_100 0 0
]

/-- Table `PM_755B_90`: 90 nm 2.00GHz Pentium M, VID #B. -/
def PM_755B_90 : List freq_info := [
  FREQ_INFO_100 2000 1324,
  FREQ_INFO_100 1800 1276,
  FREQ_INFO_100 1600 1228,
  FREQ_INFO_100 1400 1180,
  FREQ_INFO_100 1200 1132,
  FREQ_INFO_100 1000 1084,
  FREQ_INFO_100 800 1036,
  FREQ_INFO_100 600 988,
  FREQ_INFO_100 0 0
]

/-- Table `PM_755C_90`: 90 nm 2.00GHz Pentium M, VID #C. -/
def PM_755C_90 : List freq_info := [
  FREQ_INFO_100 2000 1308,
  FREQ_INFO_100 1800 1276,
  FREQ_INFO_100 1600 1228,
  FREQ_INFO_100 1400 1180,
  FREQ_INFO_100 1200 1132,
  FREQ_INFO_100 1000 1084,
  FREQ_INFO_100 800 1036,
  FREQ_INFO_100 600 988,
  FREQ_INFO_100 0 0
]

/-- Table `PM_755D_90`: 90 nm 2.00GHz Pentium M, VID #D. -/
def PM_755D_90 : List freq_info := [
  FREQ_INFO_100 2000 1276,
  FREQ_INFO_100 1800 1244,
  FREQ_INFO_100 1600 1196,
  FREQ_INFO_100 1400 1164,
  FREQ_INFO_100 1200 1116,
  FREQ_INFO_100 1000 1084,
  FREQ_INFO_100 800 1036,
  FREQ_INFO_100 600 988,
  FREQ_INFO_100 0 0
]

/-- Table `PM_745A_90`: 90 nm 1.80GHz Pentium M, VID #A. -/
def PM_745A_90 : List freq_info := [
  FREQ_INFO_100 1800 1340,
  FREQ_INFO_100 1600 1292,
  FREQ_INFO_100 1400 1228,
  FREQ_INFO_100 1200 1164,
  FREQ_INFO_100 1000 1116,
  FREQ_INFO_100 800 1052,
  FREQ_INFO_100 600 988,
  FREQ_INFO_100 0 0
]

/-- Table `PM_745B_90`: 90 nm 1.80GHz Pentium M, VID #B. -/
def PM_745B_90 : List freq_info := [
  FREQ_INFO_100 1800 1324,
  FREQ_INFO_100 1600 1276,
  FREQ_INFO_100 1400 1212,
  FREQ_INFO_100 1200 1164,
  FREQ_INFO_100 1000 1116,
  FREQ_INFO_100 800 1052,
  FREQ_INFO_100 600 988,
  FREQ_INFO_100 0 0
]

/-- Table `PM_745C_90`: 90 nm 1.80GHz Pentium M, VID #C. -/
def PM_745C_90 : List freq_info := [
  FREQ_INFO_100 1800 1308,
  FREQ_INFO_100 1600 1260,
  FREQ_INFO_100 1400 1212,
  FREQ_INFO_100 1200 1148,
  FREQ_INFO_100 1000 1100,
  FREQ_INFO_100 800 1052,
  FREQ_INFO_100 600 988,
  FREQ_INFO_100 0 0
]

/-- Table `PM_745D_90`: 90 nm 1.80GHz Pentium M, VID #D. -/
def PM_745D_90 : List freq_info := [
  FREQ_INFO_100 1800 1276,
  FREQ_INFO_100 1600 1228,
  FREQ_INFO_100 1400 1180,
  FREQ_INFO_100 1200 1132,
  FREQ_INFO_100 1000 1084,
  FREQ_INFO_100 800 1036,
  FREQ_INFO_100 600 988,
  FREQ_INFO_100 0 0
]

/-- Table `PM_735A_90`: 90 nm 1.70GHz Pentium M, VID #A. -/
def PM_735A_90 : List freq_info := [
  FREQ_INFO_100 1700 1340,
  FREQ_INFO_100 1400 1244,
  FREQ_INFO_100 1200 1180,
  FREQ_INFO_100 1000 1116,
  FREQ_INFO_100 800 1052,
  FREQ_INFO_100 600 988,
  FREQ_INFO_100 0 0
]

/-- Table `PM_735B_90`: 90 nm 1.70GHz Pentium M, VID #B. -/
def PM_735B_90 : List freq_info := [
  FREQ_INFO_100 1700 1324,
  FREQ_INFO_100 1400 1244,
  FREQ_INFO_100 1200 1180,
  FREQ_INFO_100 1000 1116,
  FREQ_INFO_100 800 1052,
  FREQ_INFO_100 600 988,
  FREQ_INFO_100 0 0
]

/-- Table `PM_735C_90`: 90 nm 1.70GHz Pentium M, VID #C. -/
def PM_735C_90 : List freq_info := [
  FREQ_INFO_100 1700 1308,
  FREQ_INFO_100 1400 1228,
  FREQ_INFO_100 1200 1164,
  FREQ_INFO_100 1000 1116,
  FREQ_INFO_100 800 1052,
  FREQ_INFO_100 600 988,
  FREQ_INFO_100 0 0
]

/-- Table `PM_735D_90`: 90 nm 1.70GHz Pentium M, VID #D. -/
def PM_735D_90 : List freq_info := [
  FREQ_INFO_100 1700 1276,
  FREQ_INFO_100 1400 1212,
  FREQ_INFO_100 1200 1148,
  FREQ_INFO_100 1000 1100,
  FREQ_INFO_100 800 1052,
  FREQ_INFO_100 600 988,
  FREQ_INFO_100 0 0
]

/-- Table `PM_725A_90`: 90 nm 1.60GHz Pentium M, VID #A. -/
def PM_725A_90 : List freq_info := [
  FREQ_INFO_100 1600 1340,
  FREQ_INFO_100 1400 1276,
  FREQ_INFO_100 1200 1212,
  FREQ_INFO_100 1000 1132,
  FREQ_INFO_100 800 1068,
  FREQ_INFO_100 600 988,
  FREQ_INFO_100 0 0
]

/-- Table `PM_725B_90`: 90 nm 1.60GHz Pentium M, VID #B. -/
def PM_725B_90 : List freq_info := [
  FREQ_INFO_100 1600 1324,
  FREQ_INFO_100 1400 1260,
  FREQ_INFO_100 1200 1196,
  FREQ_INFO_100 1000 1132,
  FREQ_INFO_100 800 1068,
  FREQ_INFO_100 600 988,
  FREQ_INFO_100 0 0
]

/-- Table `PM_725C_90`: 90 nm 1.60GHz Pentium M, VID #C. -/
def PM_725C_90 : List freq_info := [
  FREQ_INFO_100 1600 1308,
  FREQ_INFO_100 1400 1244,
  FREQ_INFO_100 1200 1180,
  FREQ_INFO_100 1000 1116,
  FREQ_INFO_100 800 1052,
  FREQ_INFO_100 600 988,
  FREQ_INFO_100 0 0
]

/-- Table `PM_725D_90`: 90 nm 1.60GHz Pentium M, VID #D. -/
def PM_725D_90 : List freq_info := [
  FREQ_INFO_100 1600 1276,
  FREQ_INFO_100 1400 1228,
  FREQ_INFO_100 1200 1164,
  FREQ_INFO_100 1000 1116,
  FREQ_INFO_100 800 1052,
  FREQ_INFO_100 600 988,
  FREQ_INFO_100 0 0
]

/-- Table `PM_715A_90`: 90 nm 1.50GHz Pentium M, VID #A. -/
def PM_715A_90 : List freq_info := [
  FREQ_INFO_100 1500 1340,
  FREQ_INFO_100 1200 1228,
  FREQ_INFO_100 1000 1148,
  FREQ_INFO_100 800 1068,
  FREQ_INFO_100 600 988,
  FREQ_INFO_100 0 0
]

/-- Table `PM_715B_90`: 90 nm 1.50GHz Pentium M, VID #B. -/
def PM_715B_90 : List freq_info := [
  FREQ_INFO_100 1500 1324,
  FREQ_INFO_100 1200 1212,
  FREQ_INFO_100 1000 1148,
  FREQ_INFO_100 800 1068,
  FREQ_INFO_100 600 988,
  FREQ_INFO_100 0 0
]

/-- Table `PM_715C_90`: 90 nm 1.50GHz Pentium M, VID #C. -/
def PM_715C_90 : List freq_info := [
  FREQ_INFO_100 1500 1308,
  FREQ_INFO_100 1200 1212,
  FREQ_INFO_100 1000 1132,
  FREQ_INFO_100 800 1068,
  FREQ_INFO_100 600 988,
  FREQ_INFO_100 0 0
]

/-- Table `PM_715D_90`: 90 nm 1.50GHz Pentium M, VID #D. -/
def PM_715D_90 : List freq_info := [
  FREQ_INFO_100 1500 1276,
  FREQ_INFO_100 1200 1180,
  FREQ_INFO_100 1000 1116,
  FREQ_INFO_100 800 1052,
  FREQ_INFO_100 600 988,
  FREQ_INFO_100 0 0
]

/-- Table `PM_738_90`: 90 nm 1.40GHz Low Voltage Pentium M. -/
def PM_738_90 : List freq_info := [
  FREQ_INFO_100 1400 1116,
  FREQ_INFO_100 1300 1116,
  FREQ_INFO_100 1200 1100,
  FREQ_INFO_100 1100 1068,
  FREQ_INFO_100 1000 1052,
  FREQ_INFO_100 900 1036,
  FREQ_INFO_100 800 1020,
  FREQ_INFO_100 600 988,
  FREQ_INFO_100 0 0
]

/-- Table `PM_753G_90`: 90 nm 1.20Ghz Ultra Low Voltage Pentium M. -/
def PM_753G_90 : List freq_info := [
  FREQ_INFO_100 1200 956,
  FREQ_INFO_100 1100 940,
  FREQ_INFO_100 1000 908,
  FREQ_INFO_100 900 892,
  FREQ_INFO_100 800 860,
  FREQ_INFO_100 600 812,
  FREQ_INFO_100 0 0
]

/-- Table `PM_753H_90`: 90 nm 1.20Ghz Ultra Low Voltage Pentium M. -/
def PM_753H_90 : List freq_info := [
  FREQ_INFO_100 1200 940,
  FREQ_INFO_100 1100 924,
  FREQ_INFO_100 1000 908,
  FREQ_INFO_100 900 876,
  FREQ_INFO_100 800 860,
  FREQ_INFO_100 600 812,
  FREQ_INFO_100 0 0
]

/-- Table `PM_753I_90`: 90 nm 1.20Ghz Ultra Low Voltage Pentium M. -/
def PM_753I_90 : List freq_info := [
  FREQ_INFO_100 1200 924,
  FREQ_INFO_100 1100 908,
  FREQ_INFO_100 1000 892,
  FREQ_INFO_100 900 876,
  FREQ_INFO_100 800 860,
  FREQ_INFO_100 600 812,
  FREQ_INFO_100 0 0
]

/-- Table `PM_753J_90`: 90 nm 1.10Ghz Ultra Low Voltage Pentium M. -/
def PM_753J_90 : List freq_info := [
  FREQ_INFO_100 1200 908,
  FREQ_INFO_100 1100 892,
  FREQ_INFO_100 1000 876,
  FREQ_INFO_100 900 860,
  FREQ_INFO_100 800 844,
  FREQ_INFO_100 600 812,
  FREQ_INFO_100 0 0
]

/-- Table `PM_753K_90`: 90 nm 1.10Ghz Ultra Low Voltage Pentium M. -/
def PM_753K_90 : List freq_info := [
  FREQ_INFO_100 1200 892,
  FREQ_INFO_100 1100 892,
  FREQ_INFO_100 1000 876,
  FREQ_INFO_100 900 860,
  FREQ_INFO_100 800 844,
  FREQ_INFO_100 600 812,
  FREQ_INFO_100 0 0
]

/-- Table `PM_753L_90`: 90 nm 1.10Ghz Ultra Low Voltage Pentium M. -/
def PM_753L_90 : List freq_info := [
  FREQ_INFO_100 1200 876,
  FREQ_INFO_100 1100 876,
  FREQ_INFO_100 1000 860,
  FREQ_INFO_100 900 844,
  FREQ_INFO_100 800 844,
  FREQ_INFO_100 600 812,
  FREQ_INFO_100 0 0
]

/-- Table `PM_733_90`: 90 nm 1.10GHz Ultra Low Voltage Pentium M. -/
def PM_733_90 : List freq_info := [
  FREQ_INFO_100 1100 940,
  FREQ_INFO_100 1000 924,
  FREQ_INFO_100 900 892,
  FREQ_INFO_100 800 876,
  FREQ_INFO_100 600 812,
  FREQ_INFO_100 0 0
]

/-- Table `PM_723_90`: 90 nm 1.00GHz Ultra Low Voltage Pentium M. -/
def PM_723_90 : List freq_info := [
  FREQ_INFO_100 1000 940,
  FREQ_INFO_100 900 908,
  FREQ_INFO_100 800 876,
  FREQ_INFO_100 600 812,
  FREQ_INFO_100 0 0
]

/-- Array `ESTprocs`: the table of known processors, closed by the entry `{ NULL, 0, 0, NULL }`. -/
def ESTprocs : List cpu_info := [
  INTEL_100 PM17_130 1700 1484 600 956,
  INTEL_100 PM16_130 1600 1484 600 956,
  INTEL_100 PM15_130 1500 1484 600 956,
  INTEL_100 PM14_130 1400 1484 600 956,
  INTEL_100 PM13_130 1300 1388 600 956,
  INTEL_100 PM13_LV_130 1300 1180 600 956,
  INTEL_100 PM12_LV_130 1200 1180 600 956,
  INTEL_100 PM11_LV_130 1100 1180 600 956,
  INTEL_100 PM11_ULV_130 1100 1004 600 844,
  INTEL_100 PM10_ULV_130 1000 1004 600 844,
  INTEL_100 PM_765A_90 2100 1340 600 988,
  INTEL_100 PM_765B_90 2100 1324 600 988,
  INTEL_100 PM_765C_90 2100 1308 600 988,
  INTEL_100 PM_765E_90 2100 1356 600 988,
  INTEL_100 PM_755A_90 2000 1340 600 988,
  INTEL_100 PM_755B_90 2000 1324 600 988,
  INTEL_100 PM_755C_90 2000 1308 600 988,
  INTEL_100 PM_755D_90 2000 1276 600 988,
  INTEL_100 PM_745A_90 1800 1340 600 988,
  INTEL_100 PM_745B_90 1800 1324 600 988,
  INTEL_100 PM_745C_90 1800 1308 600 988,
  INTEL_100 PM_745D_90 1800 1276 600 988,
  INTEL_100 PM_735A_90 1700 1340 600 988,
  INTEL_100 PM_735B_90 1700 1324 600 988,
  INTEL_100 PM_735C_90 1700 1308 600 988,
  INTEL_100 PM_735D_90 1700 1276 600 988,
  INTEL_100 PM_725A_90 1600 1340 600 988,
  INTEL_100 PM_725B_90 1600 1324 600 988,
  INTEL_100 PM_725C_90 1600 1308 600 988,
  INTEL_100 PM_725D_90 1600 1276 600 988,
  INTEL_100 PM_715A_90 1500 1340 600 988,
  INTEL_100 PM_715B_90 1500 1324 600 988,
  INTEL_100 PM_715C_90 1500 1308 600 988,
  INTEL_100 PM_715D_90 1500 1276 600 988,
  INTEL_100 PM_738_90 1400 1116 600 988,
  INTEL_100 PM_753G_90 1200 956 600 812,
  INTEL_100 PM_753H_90 1200 940 600 812,
  INTEL_100 PM_753I_90 1200 924 600 812,
  INTEL_100 PM_753J_90 1200 908 600 812,
  INTEL_100 PM_753K_90 1200 892 600 812,
  INTEL_100 PM_753L_90 1200 876 600 812,
  INTEL_100 PM_733_90 1100 940 600 812,
  INTEL_100 PM_723_90 1000 940 600 812,
  { vendor := none, ID := 0, BUSCLK := 0, freqtab := none }
]

/-! ## Machine and driver state -/

/-- Register number `MSR_PERF_STATUS`. -/
def MSR_PERF_STATUS : Nat := 0x198

/-- Register number `MSR_PERF_CTL`. -/
def MSR_PERF_CTL : Nat := 0x199

/-- Error numbers of `sys/errno.h` (FreeBSD values). -/
def EBUSY : Int := 16

/-- Error number `EINVAL` of `sys/errno.h`. -/
def EINVAL : Int := 22

/-- Error number `EOPNOTSUPP` of `sys/errno.h`. -/
def EOPNOTSUPP : Int := 45

/-- One executed model-specific-register instruction. -/
inductive MsrOp where
  | rd (reg : Nat)
  | wr (reg : Nat) (val : Nat)
  deriving DecidableEq

/-- The driver's globals together with the part of the machine it touches.
* `freq_list`: `static freq_info * freq_list`, `NULL` if EST is disabled;
* `est_frequencies`: the text held by `static char est_frequencies[80]`;
* `perf_status`, `perf_ctl`: contents of the two 64-bit registers;
* `tc_name`: the text of `timecounter->tc_name`;
* `msr_ops`: every `rdmsr` / `wrmsr` executed so far, oldest first. -/
structure State where
  freq_list : Option (List freq_info)
  est_frequencies : List Char
  perf_status : Nat
  perf_ctl : Nat
  tc_name : List Char
  msr_ops : List MsrOp
  deriving DecidableEq

/-- Instruction `rdmsr(reg)`: the value read. -/
def rdmsr_val (s : State) (reg : Nat) : Nat :=
  if reg = MSR_PERF_STATUS then s.perf_status
  else if reg = MSR_PERF_CTL then s.perf_ctl
  else 0

/-- Instruction `rdmsr(reg)`: the state after the read (the access is logged). -/
def rdmsr_st (s : State) (reg : Nat) : State :=
  { s with msr_ops := s.msr_ops ++ [MsrOp.rd reg] }

/-- Instruction `wrmsr(reg, val)`. -/
def wrmsr (s : State) (reg val : Nat) : State :=
  { s with
    perf_status := if reg = MSR_PERF_STATUS then val else s.perf_status
    perf_ctl := if reg = MSR_PERF_CTL then val else s.perf_ctl
    msr_ops := s.msr_ops ++ [MsrOp.wr reg val] }

/-- The request handed to the handler (`SYSCTL_HANDLER_ARGS`), reduced to what
the handler looks at.
* `newptr`: `none` when `req->newptr` is `NULL`; otherwise the pair
  `(err, value)` that `SYSCTL_IN(req, &MHz_wanted, sizeof(int))` yields;
* `out_err`: what `SYSCTL_OUT(req, &MHz, sizeof(int))` returns. -/
structure sysctl_req where
  newptr : Option (Int × Int)
  out_err : Int
  deriving DecidableEq

/-- What a call of the handler gives back: its return value, and the `int`
handed to `SYSCTL_OUT` if that was called. -/
structure Reply where
  err : Int
  oldval : Option Int
  deriving DecidableEq

/-! ## `est_sysctl_mhz` -/

/-- Lines 625-627: `for (f = freq_list; f->MHz != 0; f++) if (f->ID == msr) break;`
The result is the entry `f` points at when the loop is left. -/
def scan_status (msr : Nat) : List freq_info → Option freq_info
  | [] => none
  | f :: rest =>
    if f.MHz = 0 then some f
    else if f.ID = msr then some f
    else scan_status msr rest

/-- Lines 651-653:
`for (f = freq_list; f->MHz != 0; f++) if (f->MHz == MHz_wanted) break;`
The comparison is made in `int`. -/
def scan_wanted (MHz_wanted : Int) : List freq_info → Option freq_info
  | [] => none
  | f :: rest =>
    if f.MHz = 0 then some f
    else if (f.MHz : Int) = MHz_wanted then some f
    else scan_wanted MHz_wanted rest

/-- Function `est_sysctl_mhz`. -/
def est_sysctl_mhz (s : State) (req : sysctl_req) : Option (Reply × State) :=
  match s.freq_list with
  | none => some ({ err := EOPNOTSUPP, oldval := none }, s)
  | some freq_list =>
    /- Read current status, and make sure it's on our table -/
    let msr := rdmsr_val s MSR_PERF_STATUS &&& 0xffff
    let s1 := rdmsr_st s MSR_PERF_STATUS
    match scan_status msr freq_list with
    | none => none
    | some f =>
      if f.MHz = 0 then
        some ({ err := EINVAL, oldval := none }, { s1 with freq_list := none })
      else
        let MHz : Int := f.MHz
        match req.newptr with
        | some (err, MHz_wanted) =>
          if s1.tc_name = ['T', 'S', 'C'] then
            some ({ err := EBUSY, oldval := none }, s1)
          else if err ≠ 0 then
            some ({ err := err, oldval := none }, s1)
          else
            /- Look up desired frequency in table -/
            match scan_wanted MHz_wanted freq_list with
            | none => none
            | some f =>
              if f.MHz = 0 then
                some ({ err := EOPNOTSUPP, oldval := none }, s1)
              else
                let msr := rdmsr_val s1 MSR_PERF_CTL
                let s2 := rdmsr_st s1 MSR_PERF_CTL
                let msr := (msr &&& 0xffffffffffff0000) ||| f.ID
                some ({ err := 0, oldval := none }, wrmsr s2 MSR_PERF_CTL msr)
        | none =>
          some ({ err := req.out_err, oldval := some MHz }, s1)

/-- Operation `ReadCurrentFrequency()`: the handler called without a new value,
the copy-out succeeding. -/
def ReadCurrentFrequency (s : State) : Option (Reply × State) :=
  est_sysctl_mhz s { newptr := none, out_err := 0 }

/-- Operation `SetFrequency(requestedMHz)`: the handler called with a new
value that `SYSCTL_IN` delivers without error. -/
def SetFrequency (s : State) (requestedMHz : Int) : Option (Reply × State) :=
  est_sysctl_mhz s { newptr := some (0, requestedMHz), out_err := 0 }

/-! ## `findcpu` -/

/-- Function `bcmp(a, b, n)`: `0` when the first `n` bytes agree. -/
def bcmp (a b : List Char) (n : Nat) : Int :=
  if a.take n = b.take n then 0 else 1

/-- Lines 703-707: find a table which matches `(vendor, ID, BUSCLK)`.
The result is the entry `p` points at when the loop is left. -/
def scan_procs (vendor : List Char) (ID BUSCLK : Nat) : List cpu_info → Option cpu_info
  | [] => none
  | p :: rest =>
    if p.ID = 0 then some p
    else
      match p.vendor with
      | none => none
      | some pv =>
        if bcmp pv vendor 12 = 0 ∧ p.ID = ID ∧ p.BUSCLK = BUSCLK then some p
        else scan_procs vendor ID BUSCLK rest

/-- Lines 712-714: `for (f = p->freqtab; f->ID != 0; f++) if (f->ID == ID16) break;` -/
def scan_setpoint (code : Nat) : List freq_info → Option freq_info
  | [] => none
  | f :: rest =>
    if f.ID = 0 then some f
    else if f.ID = code then some f
    else scan_setpoint code rest

/-- Line 728: `for (f = freq_list; f->ID != 0; f++);` as an index into the table. -/
def scan_end : List freq_info → Option Nat
  | [] => none
  | f :: rest => if f.ID = 0 then some 0 else (scan_end rest).map (· + 1)

/-- Call `sprintf(freq, "%d", n)` for `n ≥ 0`: the decimal digits. -/
def sprintf_d (n : Nat) : List Char := Nat.toDigits 10 n

/-- Lines 730-734: one pass of the body of the generation loop, with `f` at
index `i` and `est_frequencies` holding `buf`.  `freq` has room for 5
characters and `est_frequencies` for 79, each plus the closing NUL. -/
def emit_freq (tab : List freq_info) (i : Nat) (buf : List Char) : Option (List Char) :=
  match tab.get? i with
  | none => none
  | some f =>
    let freq := if buf.isEmpty then sprintf_d f.MHz else ' ' :: sprintf_d f.MHz
    if 6 ≤ freq.length then none
    else if 80 ≤ (buf ++ freq).length then none
    else some (buf ++ freq)

/-- Lines 729-737: `for (f--;; f--) { ...; if (f == freq_list) break; }` entered
with `f` at index `i`. -/
def gen_loop (tab : List freq_info) : Nat → List Char → Option (List Char)
  | 0, buf => emit_freq tab 0 buf
  | i + 1, buf =>
    match emit_freq tab (i + 1) buf with
    | none => none
    | some buf1 => gen_loop tab i buf1

/-- Lines 727-737: generate the `est_frequencies` string, which lists the
frequencies supported in increasing order, reading the table backwards. -/
def regenerate (tab : List freq_info) : Option (List Char) :=
  match scan_end tab with
  | none => none
  | some 0 => none
  | some (n + 1) => gen_loop tab n []

/-- Function `findcpu`. -/
def findcpu (s : State) (vendor : List Char) (msr BUSCLK : Nat) : Option (Int × State) :=
  let ID := (msr >>> 32) % 4294967296
  let code := (msr &&& 0xffff) % 65536
  /- Find a table which matches (vendor, ID, BUSCLK) -/
  match scan_procs vendor ID BUSCLK ESTprocs with
  | none => none
  | some p =>
    if p.ID = 0 then some (EOPNOTSUPP, s)
    else
      match p.freqtab with
      | none => none
      | some tab =>
        /- Make sure the current setpoint is on the table -/
        match scan_setpoint code tab with
        | none => none
        | some f =>
          if f.ID = 0 then some (EOPNOTSUPP, s)
          else
            /- enable EST -/
            match regenerate tab with
            | none => none
            | some text =>
              some (0, { s with freq_list := p.freqtab, est_frequencies := text })

/-! ## Vocabulary of the specification -/

/-- The real entries of a frequency table: those before the first entry with
`MHz = 0`. -/
def realEntries (tab : List freq_info) : List freq_info :=
  tab.takeWhile (fun f => f.MHz != 0)

/-- The Registry: the entries of `ESTprocs` before the closing entry with
`ID = 0`. -/
def Registry : List cpu_info :=
  ESTprocs.takeWhile (fun p => p.ID != 0)

/-- A FrequencyTable of the data model: it holds an entry with `MHz = 0`, its
real entries are strictly descending by MHz, and every field is a `uint16_t`. -/
def FrequencyTable (tab : List freq_info) : Prop :=
  (∃ f ∈ tab, f.MHz = 0) ∧
  (realEntries tab).Pairwise (fun a b => b.MHz < a.MHz) ∧
  (∀ f ∈ tab, f.MHz < 65536 ∧ f.ID < 65536)

instance (tab : List freq_info) : Decidable (FrequencyTable tab) := by
  unfold FrequencyTable
  infer_instance

/-- State `Enabled` of the Controller, with `tab` the active table. -/
def Enabled (s : State) (tab : List freq_info) : Prop :=
  s.freq_list = some tab ∧ FrequencyTable tab

instance (s : State) (tab : List freq_info) : Decidable (Enabled s tab) := by
  unfold Enabled
  infer_instance

/-- The name of the variable-rate counter, `"TSC"`. -/
def TSC : List Char := ['T', 'S', 'C']

/-- The key test of the Identifier: same 12 vendor bytes, same CombinedID,
same bus clock. -/
def keyMatch (vendor : List Char) (ID BUSCLK : Nat) (p : cpu_info) : Bool :=
  p.vendor.map (fun v => v.take 12) == some (vendor.take 12) && p.ID == ID && p.BUSCLK == BUSCLK

/-- What the environment may do between two calls of the handler, and the
request of the next call. -/
structure Step where
  perf_status : Nat
  perf_ctl : Nat
  tc_name : List Char
  req : sysctl_req

/-- A sequence of calls of `est_sysctl_mhz`; before each call the registers and
the timecounter name take the contents the step names. -/
def runCalls : State → List Step → Option State
  | s, [] => some s
  | s, st :: rest =>
    match est_sysctl_mhz { s with perf_status := st.perf_status, perf_ctl := st.perf_ctl,
                                  tc_name := st.tc_name } st.req with
    | none => none
    | some (_, s1) => runCalls s1 rest

/-- A generic form of the three table scans: leave at the first entry that is
the terminator or a hit. -/
def scanG {α : Type} (stop hit : α → Bool) : List α → Option α
  | [] => none
  | f :: rest => if stop f then some f else if hit f then some f else scanG stop hit rest

/-- What the proofs use of a catalogue table. -/
def TableOK (tab : List freq_info) : Prop :=
  FrequencyTable tab ∧
  (realEntries tab).Pairwise (fun a b => a.ID ≠ b.ID) ∧
  (∀ f ∈ tab, f.ID = 0 ↔ f.MHz = 0) ∧
  (regenerate tab).isSome = true

instance (tab : List freq_info) : Decidable (TableOK tab) := by
  unfold TableOK
  infer_instance

/-- What the proofs use of a Registry entry. -/
def EntryOK (p : cpu_info) : Prop :=
  p.vendor = some GenuineIntel ∧ p.ID ≠ 0 ∧ p.ID < 4294967296 ∧ p.BUSCLK = 100 ∧
  ∃ tab ∈ p.freqtab, TableOK tab

instance (p : cpu_info) : Decidable (EntryOK p) := by
  unfold EntryOK
  infer_instance

/-! ## Sample states -/

/-- A timecounter name other than `"TSC"`. -/
def i8254 : List Char := ['i', '8', '2', '5', '4']

/-- A status value of the 1.70GHz 130nm Pentium M running at 1700 MHz. -/
def msr_PM17 : Nat := 0x0610113100001131

/-- A state before identification. -/
def st_off : State :=
  { freq_list := none, est_frequencies := [], perf_status := msr_PM17,
    perf_ctl := 0xabcd00001131, tc_name := i8254, msr_ops := [] }

/-- A state after identification of the 1.70GHz 130nm Pentium M. -/
def st_on : State :=
  { freq_list := some PM17_130,
    est_frequencies := ['6', '0', '0', ' ', '8', '0', '0', ' ', '1', '0', '0', '0', ' ',
      '1', '2', '0', '0', ' ', '1', '4', '0', '0', ' ', '1', '7', '0', '0'],
    perf_status := msr_PM17, perf_ctl := 0xabcd00001131, tc_name := i8254, msr_ops := [] }

/-- The state `st_on` after `SetFrequency(1000)`. -/
def st_on_1000 : State :=
  { st_on with
    perf_ctl := 0xabcd00000a1a
    msr_ops := [MsrOp.rd 0x198, MsrOp.rd 0x199, MsrOp.wr 0x199 0xabcd00000a1a] }

/-! ## Vocabulary for the Enumerator, the call sequences and the Code formula -/

/-- The entries before the first entry with `ID = 0`, the terminator that
`findcpu` and its generation loop stop at. -/
def idEntries (tab : List freq_info) : List freq_info :=
  tab.takeWhile (fun f => f.ID != 0)

/-- The text the Enumerator is to produce for the entries `fs`: the decimal
renderings of their MHz, last entry first, joined by single spaces. -/
def render (fs : List freq_info) : List Char :=
  List.intercalate [' '] (fs.reverse.map (fun f => Nat.toDigits 10 f.MHz))

/-- A call of one of the operations of the core. -/
inductive Call where
  | identify (vendor : List Char) (msr : Nat) (BUSCLK : Nat)
  | sysctl (req : sysctl_req)

/-- The effect of one call: the error number returned and the next state. -/
def callCore (s : State) : Call → Option (Int × State)
  | Call.identify vendor msr BUSCLK => findcpu s vendor msr BUSCLK
  | Call.sysctl req =>
    match est_sysctl_mhz s req with
    | none => none
    | some (r, s1) => some (r.err, s1)

/-- What the environment may do before a call of the core, and the call. -/
structure CoreStep where
  perf_status : Nat
  perf_ctl : Nat
  tc_name : List Char
  call : Call

/-- A sequence of calls of `findcpu` and `est_sysctl_mhz`; before each call the
registers and the timecounter name take the contents the step names. -/
def runCore : State → List CoreStep → Option State
  | s, [] => some s
  | s, st :: rest =>
    match callCore { s with perf_status := st.perf_status, perf_ctl := st.perf_ctl,
                            tc_name := st.tc_name } st.call with
    | none => none
    | some (_, s1) => runCore s1 rest

/-- The quantisation of the specification: millivolts at or above 700 map to
`(mv - 700) >> 4`, values below 700 are clamped to 0. -/
def spec_quantize (mv : Int) : Int :=
  if 700 ≤ mv then (mv - 700) >>> 4 else 0

/-- The Code of the specification:
`((MHz / BusClockMHz) << 8) + quantize(millivolts)`. -/
def spec_Code (MHz mv BUSCLK : Int) : Int :=
  ((MHz / BUSCLK) <<< 8) + spec_quantize mv

/-- A strictly descending table of the data model whose last real entry,
`FREQ_INFO_100(50, 0)`, has Code 0. -/
def tab_zero_code : List freq_info :=
  [FREQ_INFO_100 1000 1116, FREQ_INFO_100 600 956, FREQ_INFO_100 50 0, FREQ_INFO_100 0 0]

/-- A table of one setpoint whose terminator, `FREQ_INFO_100(0, 956)`, has a
Code other than 0. -/
def tab_sentinel_code : List freq_info :=
  [FREQ_INFO_100 1700 1484, FREQ_INFO_100 0 956]

/-- A strictly descending table of 17 setpoints, from 2600 MHz down to 1000 MHz. -/
def tab_17 : List freq_info :=
  (List.range 17).map (fun i => FREQ_INFO_100 (2600 - 100 * (i : Int)) 1000) ++
    [FREQ_INFO_100 0 0]

/-- A strictly descending table of 14 setpoints of five digits, from 23000 MHz
down to 10000 MHz. -/
def tab_14 : List freq_info :=
  (List.range 14).map (fun i => FREQ_INFO_100 (23000 - 1000 * (i : Int)) 1000) ++
    [FREQ_INFO_100 0 0]

/-- A table of one setpoint whose terminator, `FREQ_INFO_100(0, 780)`, has a
Code other than 0. -/
def tab_no_end : List freq_info :=
  [FREQ_INFO_100 1000 1116, FREQ_INFO_100 0 780]

/-- A table whose one setpoint, `FREQ_INFO_100(50, 0)`, has Code 0. -/
def tab_head_zero : List freq_info :=
  [FREQ_INFO_100 50 0, FREQ_INFO_100 0 0]

/-- The link between `freq_list` and `est_frequencies` kept by every call:
either nothing has been identified, or `est_frequencies` is the rendering of
the table of a Registry entry and `freq_list` is that table or `NULL`. -/
def DiagInv (s : State) : Prop :=
  (s.freq_list = none ∧ s.est_frequencies = []) ∨
  ∃ p ∈ Registry, ∃ tab, p.freqtab = some tab ∧
    regenerate tab = some s.est_frequencies ∧
    (s.freq_list = some tab ∨ s.freq_list = none)

/-! ## Vocabulary for the last claims -/

/-- The arguments `(MHz, mv)` of the `FREQ_INFO_100` lines of the table of each
entry of `ESTprocs`, in the order of `ESTprocs`. -/
def FREQ_INFO_args : List (List (Int × Int)) := [
  [(1700, 1484), (1400, 1308), (1200, 1228), (1000, 1116), (800, 1004), (600, 956), (0, 0)],
  [(1600, 1484), (1400, 1420), (1200, 1276), (1000, 1164), (800, 1036), (600, 956), (0, 0)],
  [(1500, 1484), (1400, 1452), (1200, 1356), (1000, 1228), (800, 1116), (600, 956), (0, 0)],
  [(1400, 1484), (1200, 1436), (1000, 1308), (800, 1180), (600, 956), (0, 0)],
  [(1300, 1388), (1200, 1356), (1000, 1292), (800, 1260), (600, 956), (0, 0)],
  [(1300, 1180), (1200, 1164), (1100, 1100), (1000, 1020), (900, 1004), (800, 988), (600, 956), (0, 0)],
  [(1200, 1180), (1100, 1164), (1000, 1100), (900, 1020), (800, 1004), (600, 956), (0, 0)],
  [(1100, 1180), (1000, 1164), (900, 1100), (800, 1020), (600, 956), (0, 0)],
  [(1100, 1004), (1000, 988), (900, 972), (800, 956), (600, 844), (0, 0)],
  [(1000, 1004), (900, 988), (800, 972), (600, 844), (0, 0)],
  [(2100, 1340), (1800, 1276), (1600, 1228), (1400, 1180), (1200, 1132), (1000, 1084), (800, 1036), (600, 988), (0, 0)],
  [(2100, 1324), (1800, 1260), (1600, 1212), (1400, 1180), (1200, 1132), (1000, 1084), (800, 1036), (600, 988), (0, 0)],
  [(2100, 1308), (1800, 1244), (1600, 1212), (1400, 1164), (1200, 1116), (1000, 1084), (800, 1036), (600, 988), (0, 0)],
  [(2100, 1356), (1800, 1292), (1600, 1244), (1400, 1196), (1200, 1148), (1000, 1100), (800, 1052), (600, 988), (0, 0)],
  [(2000, 1340), (1800, 1292), (1600, 1244), (1400, 1196), (1200, 1148), (1000, 1100), (800, 1052), (600, 988), (0, 0)],
  [(2000, 1324), (1800, 1276), (1600, 1228), (1400, 1180), (1200, 1132), (1000, 1084), (800, 1036), (600, 988), (0, 0)],
  [(2000, 1308), (1800, 1276), (1600, 1228), (1400, 1180), (1200, 1132), (1000, 1084), (800, 1036), (600, 988), (0, 0)],
  [(2000, 1276), (1800, 1244), (1600, 1196), (1400, 1164), (1200, 1116), (1000, 1084), (800, 1036), (600, 988), (0, 0)],
  [(1800, 1340), (1600, 1292), (1400, 1228), (1200, 1164), (1000, 1116), (800, 1052), (600, 988), (0, 0)],
  [(1800, 1324), (1600, 1276), (1400, 1212), (1200, 1164), (1000, 1116), (800, 1052), (600, 988), (0, 0)],
  [(1800, 1308), (1600, 1260), (1400, 1212), (1200, 1148), (1000, 1100), (800, 1052), (600, 988), (0, 0)],
  [(1800, 1276), (1600, 1228), (1400, 1180), (1200, 1132), (1000, 1084), (800, 1036), (600, 988), (0, 0)],
  [(1700, 1340), (1400, 1244), (1200, 1180), (1000, 1116), (800, 1052), (600, 988), (0, 0)],
  [(1700, 1324), (1400, 1244), (1200, 1180), (1000, 1116), (800, 1052), (600, 988), (0, 0)],
  [(1700, 1308), (1400, 1228), (1200, 1164), (1000, 1116), (800, 1052), (600, 988), (0, 0)],
  [(1700, 1276), (1400, 1212), (1200, 1148), (1000, 1100), (800, 1052), (600, 988), (0, 0)],
  [(1600, 1340), (1400, 1276), (1200, 1212), (1000, 1132), (800, 1068), (600, 988), (0, 0)],
  [(1600, 1324), (1400, 1260), (1200, 1196), (1000, 1132), (800, 1068), (600, 988), (0, 0)],
  [(1600, 1308), (1400, 1244), (1200, 1180), (1000, 1116), (800, 1052), (600, 988), (0, 0)],
  [(1600, 1276), (1400, 1228), (1200, 1164), (1000, 1116), (800, 1052), (600, 988), (0, 0)],
  [(1500, 1340), (1200, 1228), (1000, 1148), (800, 1068), (600, 988), (0, 0)],
  [(1500, 1324), (1200, 1212), (1000, 1148), (800, 1068), (600, 988), (0, 0)],
  [(1500, 1308), (1200, 1212), (1000, 1132), (800, 1068), (600, 988), (0, 0)],
  [(1500, 1276), (1200, 1180), (1000, 1116), (800, 1052), (600, 988), (0, 0)],
  [(1400, 1116), (1300, 1116), (1200, 1100), (1100, 1068), (1000, 1052), (900, 1036), (800, 1020), (600, 988), (0, 0)],
  [(1200, 956), (1100, 940), (1000, 908), (900, 892), (800, 860), (600, 812), (0, 0)],
  [(1200, 940), (1100, 924), (1000, 908), (900, 876), (800, 860), (600, 812), (0, 0)],
  [(1200, 924), (1100, 908), (1000, 892), (900, 876), (800, 860), (600, 812), (0, 0)],
  [(1200, 908), (1100, 892), (1000, 876), (900, 860), (800, 844), (600, 812), (0, 0)],
  [(1200, 892), (1100, 892), (1000, 876), (900, 860), (800, 844), (600, 812), (0, 0)],
  [(1200, 876), (1100, 876), (1000, 860), (900, 844), (800, 844), (600, 812), (0, 0)],
  [(1100, 940), (1000, 924), (900, 892), (800, 876), (600, 812), (0, 0)],
  [(1000, 940), (900, 908), (800, 876), (600, 812), (0, 0)]
]

/-- Lines 729-737 once more, with a record of the indices `f - freq_list` at
which the loop reads the table, first read first. -/
def gen_loop_log (tab : List freq_info) : Nat → List Char → Option (List Char × List Nat)
  | 0, buf =>
    match emit_freq tab 0 buf with
    | none => none
    | some buf1 => some (buf1, [0])
  | i + 1, buf =>
    match emit_freq tab (i + 1) buf with
    | none => none
    | some buf1 =>
      match gen_loop_log tab i buf1 with
      | none => none
      | some (text, reads) => some (text, (i + 1) :: reads)

/-! ## Bit-level facts -/

theorem testBit_mask (i : Nat) :
    Nat.testBit 0xffffffffffff0000 i = (decide (16 ≤ i) && decide (i < 64)) := by
  have h : (0xffffffffffff0000 : Nat) = (2 ^ 48 - 1) <<< 16 := by decide
  rw [h, Nat.testBit_shiftLeft, Nat.testBit_two_pow_sub_one]
  by_cases h1 : 16 ≤ i <;> by_cases h2 : i < 64 <;> simp [h1, h2] <;> omega

theorem testBit_small (x i : Nat) (hx : x < 65536) (hi : 16 ≤ i) : x.testBit i = false := by
  apply Nat.testBit_lt_two_pow
  calc x < 2 ^ 16 := by simpa using hx
    _ ≤ 2 ^ i := Nat.pow_le_pow_right (by decide) hi

theorem low16_replace (c x : Nat) (hx : x < 65536) :
    ((c &&& 0xffffffffffff0000) ||| x) % 65536 = x := by
  apply Nat.eq_of_testBit_eq
  intro i
  have h : (65536 : Nat) = 2 ^ 16 := by norm_num
  rw [h, Nat.testBit_mod_two_pow, Nat.testBit_or, Nat.testBit_and, testBit_mask]
  by_cases h1 : i < 16
  · have : ¬ 16 ≤ i := by omega
    simp [h1, this]
  · have := testBit_small x i hx (by omega)
    simp [h1, this]

theorem high48_keep (c x : Nat) (hc : c < 2 ^ 64) (hx : x < 65536) :
    ((c &&& 0xffffffffffff0000) ||| x) / 65536 = c / 65536 := by
  apply Nat.eq_of_testBit_eq
  intro i
  have h : (65536 : Nat) = 2 ^ 16 := by norm_num
  rw [h, ← Nat.shiftRight_eq_div_pow, ← Nat.shiftRight_eq_div_pow, Nat.testBit_shiftRight,
    Nat.testBit_shiftRight, Nat.testBit_or, Nat.testBit_and,
    testBit_mask, testBit_small x (16 + i) hx (by omega)]
  by_cases h2 : 16 + i < 64
  · simp [h2]
  · have : c.testBit (16 + i) = false := by
      apply Nat.testBit_lt_two_pow
      calc c < 2 ^ 64 := hc
        _ ≤ 2 ^ (16 + i) := Nat.pow_le_pow_right (by decide) (by omega)
    simp [h2, this]

theorem and_ffff (x : Nat) : x &&& 0xffff = x % 65536 := by
  have := Nat.and_pow_two_sub_one_eq_mod x 16
  simpa using this

theorem shl32_or_shr (a b : Nat) (hb : b < 65536) : ((a <<< 32) ||| b) >>> 32 = a := by
  apply Nat.eq_of_testBit_eq
  intro i
  rw [Nat.testBit_shiftRight, Nat.testBit_or, Nat.testBit_shiftLeft,
    testBit_small b (32 + i) hb (by omega)]
  simp

theorem shl32_or_low (a b : Nat) (hb : b < 65536) : ((a <<< 32) ||| b) % 65536 = b := by
  apply Nat.eq_of_testBit_eq
  intro i
  have h : (65536 : Nat) = 2 ^ 16 := by norm_num
  rw [h, Nat.testBit_mod_two_pow, Nat.testBit_or, Nat.testBit_shiftLeft]
  by_cases h1 : i < 16
  · have : ¬ i ≥ 32 := by omega
    simp [h1, this]
  · have := testBit_small b i hb (by omega)
    simp [h1, this]

/-! ## The scans -/

theorem scan_status_eq (msr : Nat) (tab : List freq_info) :
    scan_status msr tab = scanG (fun f => f.MHz == 0) (fun f => f.ID == msr) tab := by
  induction tab with
  | nil => rfl
  | cons f rest ih => simp [scan_status, scanG, ih]

theorem scan_wanted_eq (w : Int) (tab : List freq_info) :
    scan_wanted w tab = scanG (fun f => f.MHz == 0) (fun f => (f.MHz : Int) == w) tab := by
  induction tab with
  | nil => rfl
  | cons f rest ih => simp [scan_wanted, scanG, ih]

theorem scan_setpoint_eq (code : Nat) (tab : List freq_info) :
    scan_setpoint code tab = scanG (fun f => f.ID == 0) (fun f => f.ID == code) tab := by
  induction tab with
  | nil => rfl
  | cons f rest ih => simp [scan_setpoint, scanG, ih]

/-- A scan that stops on an entry which is not the terminator stops on a hit
among the entries before the terminator. -/
theorem scanG_hit {α : Type} (stop hit : α → Bool) (l : List α) (f : α)
    (h : scanG stop hit l = some f) (hf : stop f = false) :
    f ∈ l.takeWhile (fun x => !stop x) ∧ hit f = true := by
  induction l with
  | nil => simp [scanG] at h
  | cons a rest ih =>
    simp only [scanG] at h
    by_cases hs : stop a = true
    · simp [hs] at h
      subst h
      simp [hs] at hf
    · have hs' : stop a = false := by simpa using hs
      simp only [hs', Bool.false_eq_true, if_false] at h
      by_cases hh : hit a = true
      · simp [hh] at h
        subst h
        simp [List.takeWhile, hs', hh]
      · simp [hh] at h
        have := ih h
        simp [List.takeWhile, hs', this]

/-- The scan stops on the first hit among the entries before the terminator. -/
theorem scanG_first {α : Type} (stop hit : α → Bool) (l : List α) (e : α)
    (h : (l.takeWhile (fun x => !stop x)).find? hit = some e) :
    scanG stop hit l = some e := by
  induction l with
  | nil => simp at h
  | cons a rest ih =>
    by_cases hs : stop a = true
    · simp [List.takeWhile, hs] at h
    · have hs' : stop a = false := by simpa using hs
      simp only [List.takeWhile, hs', Bool.not_false] at h
      by_cases hh : hit a = true
      · simp [List.find?, hh] at h
        subst h
        simp [scanG, hs', hh]
      · have hh' : hit a = false := by simpa using hh
        simp only [List.find?, hh'] at h
        simp [scanG, hs', hh', ih h]

/-- Without a hit before the terminator, the scan stops on the terminator. -/
theorem scanG_miss {α : Type} (stop hit : α → Bool) (l : List α)
    (hend : ∃ x ∈ l, stop x = true)
    (hno : ∀ x ∈ l.takeWhile (fun x => !stop x), hit x = false) :
    ∃ z, scanG stop hit l = some z ∧ stop z = true := by
  induction l with
  | nil => simp at hend
  | cons a rest ih =>
    by_cases hs : stop a = true
    · exact ⟨a, by simp [scanG, hs], hs⟩
    · have hs' : stop a = false := by simpa using hs
      have ha : hit a = false := hno a (by simp [List.takeWhile, hs'])
      have hend' : ∃ x ∈ rest, stop x = true := by
        obtain ⟨x, hx, hsx⟩ := hend
        rcases List.mem_cons.mp hx with rfl | hx
        · simp [hs'] at hsx
        · exact ⟨x, hx, hsx⟩
      have hno' : ∀ x ∈ rest.takeWhile (fun x => !stop x), hit x = false := by
        intro x hx
        exact hno x (by simp [List.takeWhile, hs', hx])
      obtain ⟨z, hz, hsz⟩ := ih hend' hno'
      exact ⟨z, by simp [scanG, hs', ha, hz], hsz⟩

/-- In a list whose keys are pairwise different, the first entry with the key
of `e` is `e`. -/
theorem find_of_distinct {α β : Type} [DecidableEq β] (key : α → β) (l : List α) (e : α)
    (hd : l.Pairwise (fun a b => key a ≠ key b)) (he : e ∈ l) :
    l.find? (fun x => key x == key e) = some e := by
  induction l with
  | nil => simp at he
  | cons a rest ih =>
    rcases List.mem_cons.mp he with rfl | he'
    · simp [List.find?]
    · have hne : key a ≠ key e := (List.pairwise_cons.mp hd).1 e he'
      have : (key a == key e) = false := by simpa using hne
      simp only [List.find?, this]
      exact ih (List.pairwise_cons.mp hd).2 he'

theorem realEntries_eq (tab : List freq_info) :
    realEntries tab = tab.takeWhile (fun x => !(fun f : freq_info => f.MHz == 0) x) := rfl

theorem mem_realEntries_ne (tab : List freq_info) (f : freq_info) (h : f ∈ realEntries tab) :
    f.MHz ≠ 0 := by
  have := List.mem_takeWhile_imp h
  simpa using this

theorem status_found (msr : Nat) (tab : List freq_info)
    (h : ∃ g ∈ realEntries tab, g.ID = msr) :
    ∃ f, scan_status msr tab = some f ∧ f.MHz ≠ 0 ∧ f ∈ realEntries tab ∧ f.ID = msr := by
  obtain ⟨g, hg, hgid⟩ := h
  have hsome : ((realEntries tab).find? (fun f => f.ID == msr)).isSome = true := by
    rw [List.find?_isSome]
    exact ⟨g, hg, by simp [hgid]⟩
  obtain ⟨f, hf⟩ := Option.isSome_iff_exists.mp hsome
  have hmem : f ∈ realEntries tab := List.mem_of_find?_eq_some hf
  have hid : f.ID = msr := by simpa using List.find?_some hf
  refine ⟨f, ?_, mem_realEntries_ne tab f hmem, hmem, hid⟩
  rw [scan_status_eq]
  exact scanG_first _ _ tab f (by rw [← realEntries_eq]; exact hf)

theorem status_missing (msr : Nat) (tab : List freq_info)
    (hend : ∃ f ∈ tab, f.MHz = 0) (hno : ∀ f ∈ realEntries tab, f.ID ≠ msr) :
    ∃ z, scan_status msr tab = some z ∧ z.MHz = 0 := by
  rw [scan_status_eq]
  obtain ⟨z, hz, hsz⟩ := scanG_miss (fun f : freq_info => f.MHz == 0) (fun f => f.ID == msr) tab
    (by obtain ⟨f, hf, h0⟩ := hend; exact ⟨f, hf, by simp [h0]⟩)
    (by intro x hx; rw [← realEntries_eq] at hx; simpa using hno x hx)
  exact ⟨z, hz, by simpa using hsz⟩

theorem wanted_found (tab : List freq_info) (e : freq_info)
    (hd : (realEntries tab).Pairwise (fun a b => b.MHz < a.MHz))
    (he : e ∈ realEntries tab) :
    scan_wanted (e.MHz : Int) tab = some e := by
  rw [scan_wanted_eq]
  apply scanG_first
  rw [← realEntries_eq]
  have hd' : (realEntries tab).Pairwise (fun a b => ((a.MHz : Int)) ≠ (b.MHz : Int)) :=
    hd.imp (by intro a b hab; simp; omega)
  exact find_of_distinct (fun f : freq_info => (f.MHz : Int)) (realEntries tab) e hd' he

theorem wanted_missing (w : Int) (tab : List freq_info)
    (hend : ∃ f ∈ tab, f.MHz = 0) (hno : ∀ f ∈ realEntries tab, (f.MHz : Int) ≠ w) :
    ∃ z, scan_wanted w tab = some z ∧ z.MHz = 0 := by
  rw [scan_wanted_eq]
  obtain ⟨z, hz, hsz⟩ := scanG_miss (fun f : freq_info => f.MHz == 0)
    (fun f => (f.MHz : Int) == w) tab
    (by obtain ⟨f, hf, h0⟩ := hend; exact ⟨f, hf, by simp [h0]⟩)
    (by intro x hx; rw [← realEntries_eq] at hx; simpa using hno x hx)
  exact ⟨z, hz, by simpa using hsz⟩

theorem rdmsr_status (s : State) : rdmsr_val s MSR_PERF_STATUS = s.perf_status := by
  simp [rdmsr_val]

theorem rdmsr_ctl (s : State) : rdmsr_val s MSR_PERF_CTL = s.perf_ctl := by
  simp [rdmsr_val, MSR_PERF_CTL, MSR_PERF_STATUS]

/-- The handler in a disabled state: nothing happens. -/
theorem sysctl_disabled (s : State) (req : sysctl_req) (h : s.freq_list = none) :
    est_sysctl_mhz s req = some ({ err := EOPNOTSUPP, oldval := none }, s) := by
  simp [est_sysctl_mhz, h]

/-- The handler when the status register reports no setpoint of the table. -/
theorem sysctl_bad_status (s : State) (req : sysctl_req) (tab : List freq_info)
    (hs : s.freq_list = some tab) (hend : ∃ f ∈ tab, f.MHz = 0)
    (hno : ∀ f ∈ realEntries tab, f.ID ≠ s.perf_status % 65536) :
    est_sysctl_mhz s req = some ({ err := EINVAL, oldval := none },
      { s with freq_list := none, msr_ops := s.msr_ops ++ [MsrOp.rd MSR_PERF_STATUS] }) := by
  obtain ⟨z, hz, hz0⟩ := status_missing (s.perf_status % 65536) tab hend hno
  simp [est_sysctl_mhz, hs, rdmsr_status, and_ffff, hz, hz0, rdmsr_st]

/-! ## Facts about the catalogue, checked by evaluation -/

set_option maxRecDepth 100000 in
theorem registry_ok : ∀ p ∈ Registry, EntryOK p := by decide

set_option maxRecDepth 100000 in
theorem ESTprocs_eq : ∃ z, z.ID = 0 ∧ ESTprocs = Registry ++ [z] :=
  ⟨{ vendor := none, ID := 0, BUSCLK := 0, freqtab := none }, rfl, by decide⟩

set_option maxRecDepth 100000 in
theorem registry_keys : Registry.Pairwise (fun a b => a.ID ≠ b.ID) := by decide

set_option maxRecDepth 100000 in
theorem registry_first_match :
    ∀ r ∈ Registry, ∀ v ∈ r.vendor, Registry.find? (keyMatch v r.ID r.BUSCLK) = some r := by
  decide

/-! ## The scans of `findcpu` -/

theorem scan_procs_registry (vendor : List Char) (ID BUSCLK : Nat) (z : cpu_info)
    (hz : z.ID = 0) (R : List cpu_info) (hR : ∀ p ∈ R, EntryOK p) :
    scan_procs vendor ID BUSCLK (R ++ [z]) =
      some ((R.find? (keyMatch vendor ID BUSCLK)).getD z) := by
  induction R with
  | nil => simp [scan_procs, hz]
  | cons p rest ih =>
    have hp := hR p (by simp)
    have hrest : ∀ q ∈ rest, EntryOK q := fun q hq => hR q (by simp [hq])
    obtain ⟨hv, hid, -, -, -⟩ := hp
    by_cases hk : keyMatch vendor ID BUSCLK p = true
    · have hk' := hk
      simp only [keyMatch, hv, Option.map_some', Bool.and_eq_true, beq_iff_eq,
        Option.some.injEq] at hk'
      simp [scan_procs, hid, hv, bcmp, hk, hk'.1.1, hk'.1.2, hk'.2]
    · have hk0 : keyMatch vendor ID BUSCLK p = false := by simpa using hk
      have hk' := hk
      simp only [keyMatch, hv, Option.map_some', Bool.and_eq_true, beq_iff_eq,
        Option.some.injEq, not_and] at hk'
      have hcond : ¬ (bcmp GenuineIntel vendor 12 = 0 ∧ p.ID = ID ∧ p.BUSCLK = BUSCLK) := by
        rintro ⟨h1, h2, h3⟩
        have h1' : List.take 12 GenuineIntel = List.take 12 vendor := by
          by_contra hne
          simp [bcmp, hne] at h1
        exact hk' ⟨h1', h2⟩ h3
      simp only [List.cons_append, scan_procs, hid, if_false, hv, hcond, List.find?, hk0]
      exact ih hrest

theorem scan_procs_ESTprocs (vendor : List Char) (ID BUSCLK : Nat) :
    ∃ z, z.ID = 0 ∧ scan_procs vendor ID BUSCLK ESTprocs =
      some ((Registry.find? (keyMatch vendor ID BUSCLK)).getD z) := by
  obtain ⟨z, hz, heq⟩ := ESTprocs_eq
  refine ⟨z, hz, ?_⟩
  rw [heq]
  exact scan_procs_registry vendor ID BUSCLK z hz Registry registry_ok

theorem idEntries_eq (tab : List freq_info) (h : ∀ f ∈ tab, f.ID = 0 ↔ f.MHz = 0) :
    tab.takeWhile (fun x => !(fun f : freq_info => f.ID == 0) x) = realEntries tab := by
  induction tab with
  | nil => rfl
  | cons a rest ih =>
    have ha := h a (by simp)
    have hrest : ∀ f ∈ rest, f.ID = 0 ↔ f.MHz = 0 := fun f hf => h f (by simp [hf])
    have ih' := ih hrest
    by_cases h0 : a.MHz = 0
    · simp [realEntries, List.takeWhile, h0, ha.mpr h0]
    · have h1 : a.ID ≠ 0 := fun hh => h0 (ha.mp hh)
      simp only [realEntries] at ih' ⊢
      simp [List.takeWhile_cons, h0, h1, ih']

theorem setpoint_found (code : Nat) (tab : List freq_info) (hok : TableOK tab)
    (h : ∃ g ∈ realEntries tab, g.ID = code) :
    ∃ f, scan_setpoint code tab = some f ∧ f.ID ≠ 0 ∧ f ∈ realEntries tab ∧ f.ID = code := by
  obtain ⟨g, hg, hgid⟩ := h
  have hsome : ((realEntries tab).find? (fun f => f.ID == code)).isSome = true := by
    rw [List.find?_isSome]
    exact ⟨g, hg, by simp [hgid]⟩
  obtain ⟨f, hf⟩ := Option.isSome_iff_exists.mp hsome
  have hmem : f ∈ realEntries tab := List.mem_of_find?_eq_some hf
  have hid : f.ID = code := by simpa using List.find?_some hf
  have hmem' : f ∈ tab := List.takeWhile_subset _ hmem
  have hne : f.ID ≠ 0 := fun hh =>
    mem_realEntries_ne tab f hmem ((hok.2.2.1 f hmem').mp hh)
  refine ⟨f, ?_, hne, hmem, hid⟩
  rw [scan_setpoint_eq]
  exact scanG_first _ _ tab f (by rw [idEntries_eq tab hok.2.2.1]; exact hf)

theorem setpoint_missing (code : Nat) (tab : List freq_info) (hok : TableOK tab)
    (hno : ∀ f ∈ realEntries tab, f.ID ≠ code) :
    ∃ z, scan_setpoint code tab = some z ∧ z.ID = 0 := by
  rw [scan_setpoint_eq]
  obtain ⟨z, hz, hsz⟩ := scanG_miss (fun f : freq_info => f.ID == 0) (fun f => f.ID == code) tab
    (by
      obtain ⟨f, hf, h0⟩ := hok.1.1
      exact ⟨f, hf, by simp [(hok.2.2.1 f hf).mpr h0]⟩)
    (by
      intro x hx
      rw [idEntries_eq tab hok.2.2.1] at hx
      simpa using hno x hx)
  exact ⟨z, hz, by simpa using hsz⟩

theorem low16_idem (msr : Nat) : (msr &&& 0xffff) % 65536 = msr % 65536 := by
  rw [and_ffff, Nat.mod_mod]

/-- Outcome of `findcpu` when no Registry entry has the key. -/
theorem findcpu_no_model (s : State) (vendor : List Char) (msr BUSCLK : Nat)
    (h : Registry.find? (keyMatch vendor ((msr >>> 32) % 4294967296) BUSCLK) = none) :
    findcpu s vendor msr BUSCLK = some (EOPNOTSUPP, s) := by
  obtain ⟨z, hz, hscan⟩ := scan_procs_ESTprocs vendor ((msr >>> 32) % 4294967296) BUSCLK
  simp [findcpu, hscan, h, hz]

/-- Outcome of `findcpu` when the first entry with the key lacks the code. -/
theorem findcpu_no_setpoint (s : State) (vendor : List Char) (msr BUSCLK : Nat)
    (p : cpu_info) (tab : List freq_info)
    (h : Registry.find? (keyMatch vendor ((msr >>> 32) % 4294967296) BUSCLK) = some p)
    (htab : p.freqtab = some tab)
    (hno : ∀ f ∈ realEntries tab, f.ID ≠ msr % 65536) :
    findcpu s vendor msr BUSCLK = some (EOPNOTSUPP, s) := by
  obtain ⟨z, hz, hscan⟩ := scan_procs_ESTprocs vendor ((msr >>> 32) % 4294967296) BUSCLK
  have hp := registry_ok p (List.mem_of_find?_eq_some h)
  obtain ⟨-, hid, -, -, tab', htab', hok⟩ := hp
  have : tab' = tab := by
    rw [htab] at htab'
    simpa using htab'.symm
  subst this
  obtain ⟨f, hf, hf0⟩ := setpoint_missing (msr % 65536) tab' hok hno
  simp [findcpu, hscan, h, hid, htab, low16_idem, hf, hf0]

/-- Outcome of `findcpu` when the first entry with the key has the code. -/
theorem findcpu_found (s : State) (vendor : List Char) (msr BUSCLK : Nat)
    (p : cpu_info) (tab : List freq_info)
    (h : Registry.find? (keyMatch vendor ((msr >>> 32) % 4294967296) BUSCLK) = some p)
    (htab : p.freqtab = some tab)
    (hyes : ∃ f ∈ realEntries tab, f.ID = msr % 65536) :
    ∃ text, regenerate tab = some text ∧
      findcpu s vendor msr BUSCLK =
        some (0, { s with freq_list := some tab, est_frequencies := text }) := by
  obtain ⟨z, hz, hscan⟩ := scan_procs_ESTprocs vendor ((msr >>> 32) % 4294967296) BUSCLK
  have hp := registry_ok p (List.mem_of_find?_eq_some h)
  obtain ⟨-, hid, -, -, tab', htab', hok⟩ := hp
  have : tab' = tab := by
    rw [htab] at htab'
    simpa using htab'.symm
  subst this
  obtain ⟨f, hf, hf0, -, -⟩ := setpoint_found (msr % 65536) tab' hok hyes
  obtain ⟨text, htext⟩ := Option.isSome_iff_exists.mp hok.2.2.2
  exact ⟨text, htext, by simp [findcpu, hscan, h, hid, htab, low16_idem, hf, hf0, htext]⟩

theorem shr32_lt (msr : Nat) (h : msr < 2 ^ 64) : (msr >>> 32) % 4294967296 = msr >>> 32 := by
  apply Nat.mod_eq_of_lt
  rw [Nat.shiftRight_eq_div_pow]
  omega

theorem distinct_unique {α β : Type} [DecidableEq β] (key : α → β) (l : List α) (a b : α)
    (hd : l.Pairwise (fun x y => key x ≠ key y)) (ha : a ∈ l) (hb : b ∈ l)
    (hk : key a = key b) : a = b := by
  have h1 := find_of_distinct key l a hd ha
  have h2 := find_of_distinct key l b hd hb
  rw [hk, h2] at h1
  simpa using h1.symm
/-- The handler on a request with a new value, in an enabled state whose status
register reports a setpoint of the table and whose timecounter is not the TSC:
everything hinges on the look-up of the wanted frequency. -/
theorem sysctl_set_unfold (s : State) (tab : List freq_info) (w : Int)
    (hs : s.freq_list = some tab)
    (hstatus : ∃ g ∈ realEntries tab, g.ID = s.perf_status % 65536)
    (htc : s.tc_name ≠ TSC) :
    SetFrequency s w =
      match scan_wanted w tab with
      | none => none
      | some f =>
        if f.MHz = 0 then
          some ({ err := EOPNOTSUPP, oldval := none },
            { s with msr_ops := s.msr_ops ++ [MsrOp.rd MSR_PERF_STATUS] })
        else
          some ({ err := 0, oldval := none },
            { s with
              perf_ctl := (s.perf_ctl &&& 0xffffffffffff0000) ||| f.ID
              msr_ops := s.msr_ops ++ [MsrOp.rd MSR_PERF_STATUS, MsrOp.rd MSR_PERF_CTL,
                MsrOp.wr MSR_PERF_CTL ((s.perf_ctl &&& 0xffffffffffff0000) ||| f.ID)] }) := by
  obtain ⟨f, hf, hf0, -, -⟩ := status_found (s.perf_status % 65536) tab hstatus
  have htc' : ¬ s.tc_name = ['T', 'S', 'C'] := htc
  simp only [SetFrequency, est_sysctl_mhz, hs, rdmsr_status, and_ffff, hf, hf0, if_false,
    rdmsr_st, htc', ne_eq, not_true_eq_false, rdmsr_ctl, wrmsr]
  cases scan_wanted w tab with
  | none => rfl
  | some g =>
    by_cases hg : g.MHz = 0
    · simp [hg]
    · simp [hg, MSR_PERF_CTL, MSR_PERF_STATUS]

/-- The handler on a read request, in an enabled state whose status register
reports a setpoint of the table. -/
theorem sysctl_read_found (s : State) (tab : List freq_info) (f : freq_info)
    (hs : s.freq_list = some tab)
    (hf : f ∈ realEntries tab) (hid : f.ID = s.perf_status % 65536)
    (hd : (realEntries tab).Pairwise (fun a b => a.ID ≠ b.ID)) :
    ReadCurrentFrequency s = some ({ err := 0, oldval := some (f.MHz : Int) },
      { s with msr_ops := s.msr_ops ++ [MsrOp.rd MSR_PERF_STATUS] }) := by
  obtain ⟨g, hg, hg0, hgmem, hgid⟩ := status_found (s.perf_status % 65536) tab ⟨f, hf, hid⟩
  have hgf : g = f :=
    distinct_unique (fun x : freq_info => x.ID) (realEntries tab) g f hd hgmem hf
      (by simp [hgid, hid])
  subst hgf
  simp [ReadCurrentFrequency, est_sysctl_mhz, hs, rdmsr_status, and_ffff, hg, hg0, rdmsr_st]

theorem runCalls_disabled (steps : List Step) :
    ∀ s : State, s.freq_list = none →
      ∃ s2, runCalls s steps = some s2 ∧ s2.freq_list = none := by
  induction steps with
  | nil => intro s h; exact ⟨s, rfl, h⟩
  | cons st rest ih =>
    intro s h
    have hcall := sysctl_disabled
      { s with perf_status := st.perf_status, perf_ctl := st.perf_ctl, tc_name := st.tc_name }
      st.req h
    obtain ⟨s2, hrun, h2⟩ := ih
      { s with perf_status := st.perf_status, perf_ctl := st.perf_ctl, tc_name := st.tc_name } h
    exact ⟨s2, by simp only [runCalls, hcall]; exact hrun, h2⟩

/-! ## Claims -/

/-- C1: if `findcpu`, started in any state (ActiveState = none included),
succeeds on `(vendor, msr, BUSCLK)`, then the selected table is the table of a Registry
entry, it has exactly one real entry `f` whose Code is the low 16 bits of `msr`,
and ReadCurrentFrequency, run while the status register holds `msr`, succeeds
and returns `f.MHz`. -/
theorem C1_read_after_identify (s s1 : State) (vendor : List Char) (msr BUSCLK : Nat)
    (hid : findcpu s vendor msr BUSCLK = some (0, s1)) :
    ∃ p tab f, p ∈ Registry ∧ p.freqtab = some tab ∧ s1.freq_list = some tab ∧
      f ∈ realEntries tab ∧ f.ID = msr % 65536 ∧
      (∀ g ∈ realEntries tab, g.ID = msr % 65536 → g = f) ∧
      ReadCurrentFrequency { s1 with perf_status := msr } =
        some ({ err := 0, oldval := some (f.MHz : Int) },
          { s1 with perf_status := msr
                    msr_ops := s1.msr_ops ++ [MsrOp.rd MSR_PERF_STATUS] }) := by
  cases hfind : Registry.find? (keyMatch vendor ((msr >>> 32) % 4294967296) BUSCLK) with
  | none =>
    rw [findcpu_no_model s vendor msr BUSCLK hfind] at hid
    simp [EOPNOTSUPP] at hid
  | some p =>
    have hp : p ∈ Registry := List.mem_of_find?_eq_some hfind
    obtain ⟨-, -, -, -, tab, htab, hok⟩ := registry_ok p hp
    have htab' : p.freqtab = some tab := htab
    by_cases hyes : ∃ f ∈ realEntries tab, f.ID = msr % 65536
    · obtain ⟨text, -, hres⟩ := findcpu_found s vendor msr BUSCLK p tab hfind htab' hyes
      rw [hres] at hid
      simp only [Option.some.injEq, Prod.mk.injEq, true_and] at hid
      subst hid
      obtain ⟨f, hf, hfid⟩ := hyes
      refine ⟨p, tab, f, hp, htab', rfl, hf, hfid, ?_, ?_⟩
      · intro g hg hgid
        exact distinct_unique (fun x : freq_info => x.ID) (realEntries tab) g f hok.2.1 hg hf
          (by simp [hgid, hfid])
      · exact sysctl_read_found _ tab f rfl hf hfid hok.2.1
    · have hno : ∀ f ∈ realEntries tab, f.ID ≠ msr % 65536 := by
        intro f hf hfid
        exact hyes ⟨f, hf, hfid⟩
      rw [findcpu_no_setpoint s vendor msr BUSCLK p tab hfind htab' hno] at hid
      simp [EOPNOTSUPP] at hid

theorem C1_witness :
    findcpu st_off GenuineIntel msr_PM17 100 =
      some (0, { st_on with msr_ops := [] }) ∧
    ∃ p tab f, p ∈ Registry ∧ p.freqtab = some tab ∧
      ({ st_on with msr_ops := [] } : State).freq_list = some tab ∧
      f ∈ realEntries tab ∧ f.ID = msr_PM17 % 65536 ∧
      (∀ g ∈ realEntries tab, g.ID = msr_PM17 % 65536 → g = f) ∧
      ReadCurrentFrequency { ({ st_on with msr_ops := [] } : State) with perf_status := msr_PM17 } =
        some ({ err := 0, oldval := some (f.MHz : Int) },
          { ({ st_on with msr_ops := [] } : State) with
            perf_status := msr_PM17
            msr_ops := ({ st_on with msr_ops := [] } : State).msr_ops ++
              [MsrOp.rd MSR_PERF_STATUS] }) :=
  ⟨by decide,
    C1_read_after_identify st_off { st_on with msr_ops := [] } GenuineIntel msr_PM17 100
      (by decide)⟩

/-- C2: in an Enabled state whose status register reports a Code of the active
table and whose timekeeping source is not "TSC", for every 64-bit prior
control-register value and every real entry `e` of the table, SetFrequency of
`e.MHz` succeeds with one write to the control register; the value written has
its low 16 bits equal to `e.ID` and its bits 16..63 equal to those of the prior
value. -/
theorem C2_set_frequency_read_modify_write (s : State) (tab : List freq_info) (e : freq_info)
    (hen : Enabled s tab)
    (hstatus : ∃ g ∈ realEntries tab, g.ID = s.perf_status % 65536)
    (htc : s.tc_name ≠ TSC)
    (hc : s.perf_ctl < 2 ^ 64)
    (he : e ∈ realEntries tab) :
    ∃ v, v % 65536 = e.ID ∧ v / 65536 = s.perf_ctl / 65536 ∧
      SetFrequency s (e.MHz : Int) = some ({ err := 0, oldval := none },
        { s with
          perf_ctl := v
          msr_ops := s.msr_ops ++ [MsrOp.rd MSR_PERF_STATUS, MsrOp.rd MSR_PERF_CTL,
            MsrOp.wr MSR_PERF_CTL v] }) := by
  obtain ⟨hs, -, hdesc, hty⟩ := hen
  have he16 : e.ID < 65536 := (hty e (List.takeWhile_subset _ he)).2
  refine ⟨(s.perf_ctl &&& 0xffffffffffff0000) ||| e.ID, low16_replace _ _ he16,
    high48_keep _ _ hc he16, ?_⟩
  rw [sysctl_set_unfold s tab _ hs hstatus htc, wanted_found tab e hdesc he]
  simp [mem_realEntries_ne tab e he]

theorem C2_witness :
    Enabled st_on PM17_130 ∧
    (∃ g ∈ realEntries PM17_130, g.ID = st_on.perf_status % 65536) ∧
    st_on.tc_name ≠ TSC ∧ st_on.perf_ctl < 2 ^ 64 ∧
    FREQ_INFO_100 1000 1116 ∈ realEntries PM17_130 ∧
    ∃ v, v % 65536 = (FREQ_INFO_100 1000 1116).ID ∧ v / 65536 = st_on.perf_ctl / 65536 ∧
      SetFrequency st_on ((FREQ_INFO_100 1000 1116).MHz : Int) =
        some ({ err := 0, oldval := none },
          { st_on with
            perf_ctl := v
            msr_ops := st_on.msr_ops ++ [MsrOp.rd MSR_PERF_STATUS, MsrOp.rd MSR_PERF_CTL,
              MsrOp.wr MSR_PERF_CTL v] }) :=
  ⟨by decide, by decide, by decide, by decide, by decide,
    C2_set_frequency_read_modify_write st_on PM17_130 (FREQ_INFO_100 1000 1116)
      (by decide) (by decide) (by decide) (by decide) (by decide)⟩

/-- C3: set/read round trip.  For every Registry table taken as the active
table and every real entry `e` of it, after a successful SetFrequency of
`e.MHz`, a ReadCurrentFrequency made with the low 16 bits of the status register
equal to the low 16 bits of the control register succeeds and returns `e.MHz`. -/
theorem C3_set_read_round_trip (p : cpu_info) (tab : List freq_info) (e : freq_info)
    (s s1 : State) (status : Nat)
    (hp : p ∈ Registry) (htab : p.freqtab = some tab)
    (hs : s.freq_list = some tab) (he : e ∈ realEntries tab)
    (hset : SetFrequency s (e.MHz : Int) = some ({ err := 0, oldval := none }, s1))
    (hstatus : status % 65536 = s1.perf_ctl % 65536) :
    ReadCurrentFrequency { s1 with perf_status := status } =
      some ({ err := 0, oldval := some (e.MHz : Int) },
        { s1 with perf_status := status
                  msr_ops := s1.msr_ops ++ [MsrOp.rd MSR_PERF_STATUS] }) := by
  obtain ⟨-, -, -, -, tab', htab', hok⟩ := registry_ok p hp
  have : tab' = tab := by
    rw [htab] at htab'
    simpa using htab'.symm
  subst this
  obtain ⟨⟨-, hdesc, hty⟩, hdist, -, -⟩ := hok
  have he16 : e.ID < 65536 := (hty e (List.takeWhile_subset _ he)).2
  have hw := wanted_found tab' e hdesc he
  have he0 := mem_realEntries_ne tab' e he
  -- what a successful call has done
  have hs1 : s1.freq_list = some tab' ∧
      s1.perf_ctl = (s.perf_ctl &&& 0xffffffffffff0000) ||| e.ID := by
    simp only [SetFrequency, est_sysctl_mhz, hs] at hset
    split at hset
    · simp at hset
    · split at hset
      · simp [EINVAL] at hset
      · simp only [hw, he0, if_false] at hset
        split at hset
        · simp [EBUSY] at hset
        · simp only [ne_eq, not_true_eq_false, if_false, Option.some.injEq, Prod.mk.injEq,
            true_and] at hset
          subst hset
          simp [wrmsr, rdmsr_st, rdmsr_val, hs, MSR_PERF_CTL, MSR_PERF_STATUS]
  have hid : e.ID = status % 65536 := by
    rw [hstatus, hs1.2, low16_replace _ _ he16]
  exact sysctl_read_found { s1 with perf_status := status } tab' e hs1.1 he hid hdist

theorem C3_witness :
    INTEL_100 PM17_130 1700 1484 600 956 ∈ Registry ∧
    (INTEL_100 PM17_130 1700 1484 600 956).freqtab = some PM17_130 ∧
    st_on.freq_list = some PM17_130 ∧
    FREQ_INFO_100 1000 1116 ∈ realEntries PM17_130 ∧
    SetFrequency st_on 1000 = some ({ err := 0, oldval := none }, st_on_1000) ∧
    (0x0610113100000a1a : Nat) % 65536 = st_on_1000.perf_ctl % 65536 ∧
    ReadCurrentFrequency { st_on_1000 with perf_status := 0x0610113100000a1a } =
      some ({ err := 0, oldval := some 1000 },
        { st_on_1000 with
          perf_status := 0x0610113100000a1a
          msr_ops := st_on_1000.msr_ops ++ [MsrOp.rd MSR_PERF_STATUS] }) :=
  ⟨by decide, by decide, by decide, by decide, by decide, by decide,
    C3_set_read_round_trip (INTEL_100 PM17_130 1700 1484 600 956) PM17_130
      (FREQ_INFO_100 1000 1116) st_on st_on_1000 0x0610113100000a1a
      (by decide) (by decide) (by decide) (by decide) (by decide) (by decide)⟩

/-- C4: in an Enabled state whose status register reports a Code of the active
table and whose timekeeping source is not "TSC", SetFrequency of any integer
that is the MHz of no real entry (0, negative and above 65535 included) returns
NotSupported; the only register access is the read of the status register, no
register is written and ActiveState stays as it was. -/
theorem C4_set_frequency_absent (s : State) (tab : List freq_info) (requestedMHz : Int)
    (hen : Enabled s tab)
    (hstatus : ∃ g ∈ realEntries tab, g.ID = s.perf_status % 65536)
    (htc : s.tc_name ≠ TSC)
    (hno : ∀ f ∈ realEntries tab, (f.MHz : Int) ≠ requestedMHz) :
    SetFrequency s requestedMHz = some ({ err := EOPNOTSUPP, oldval := none },
      { s with msr_ops := s.msr_ops ++ [MsrOp.rd MSR_PERF_STATUS] }) := by
  obtain ⟨hs, hend, -, -⟩ := hen
  obtain ⟨z, hz, hz0⟩ := wanted_missing requestedMHz tab hend hno
  rw [sysctl_set_unfold s tab _ hs hstatus htc, hz]
  simp [hz0]

theorem C4_witness :
    Enabled st_on PM17_130 ∧
    (∃ g ∈ realEntries PM17_130, g.ID = st_on.perf_status % 65536) ∧
    st_on.tc_name ≠ TSC ∧
    (∀ f ∈ realEntries PM17_130, (f.MHz : Int) ≠ 1650) ∧
    SetFrequency st_on 1650 = some ({ err := EOPNOTSUPP, oldval := none },
      { st_on with msr_ops := st_on.msr_ops ++ [MsrOp.rd MSR_PERF_STATUS] }) :=
  ⟨by decide, by decide, by decide, by decide,
    C4_set_frequency_absent st_on PM17_130 1650 (by decide) (by decide) (by decide) (by decide)⟩

/-- C5, as stated, fails.  With "TSC" as the timekeeping source: (a) in an
Enabled state whose status register reports no Code of the table, SetFrequency
returns EINVAL, not EBUSY, and clears ActiveState; (b) in an Enabled state
whose status register reports a Code of the table, SetFrequency returns EBUSY
but has read the status register. -/
theorem C5_counterexample :
    (Enabled { st_on with tc_name := TSC, perf_status := 0 } PM17_130 ∧
      SetFrequency { st_on with tc_name := TSC, perf_status := 0 } 600 =
        some ({ err := EINVAL, oldval := none },
          { st_on with tc_name := TSC, perf_status := 0, freq_list := none,
                       msr_ops := [MsrOp.rd MSR_PERF_STATUS] }) ∧
      EINVAL ≠ EBUSY) ∧
    (Enabled { st_on with tc_name := TSC } PM17_130 ∧
      SetFrequency { st_on with tc_name := TSC } 600 =
        some ({ err := EBUSY, oldval := none },
          { st_on with tc_name := TSC, msr_ops := [MsrOp.rd MSR_PERF_STATUS] }) ∧
      [MsrOp.rd MSR_PERF_STATUS] ≠ ([] : List MsrOp)) := by
  decide

/-- C5, amended: in an Enabled state whose status register reports a Code of
the active table, if the timekeeping source is named "TSC", SetFrequency of any
MHz returns Busy; its only register access is the read of the status register,
no register is written and ActiveState stays as it was. -/
theorem C5_set_frequency_busy (s : State) (tab : List freq_info) (requestedMHz : Int)
    (hen : Enabled s tab)
    (hstatus : ∃ g ∈ realEntries tab, g.ID = s.perf_status % 65536)
    (htc : s.tc_name = TSC) :
    SetFrequency s requestedMHz = some ({ err := EBUSY, oldval := none },
      { s with msr_ops := s.msr_ops ++ [MsrOp.rd MSR_PERF_STATUS] }) := by
  obtain ⟨hs, -, -, -⟩ := hen
  obtain ⟨f, hf, hf0, -, -⟩ := status_found (s.perf_status % 65536) tab hstatus
  have htc' : s.tc_name = ['T', 'S', 'C'] := htc
  simp [SetFrequency, est_sysctl_mhz, hs, rdmsr_status, and_ffff, hf, hf0, rdmsr_st, htc']

theorem C5_witness :
    Enabled { st_on with tc_name := TSC } PM17_130 ∧
    (∃ g ∈ realEntries PM17_130, g.ID = ({ st_on with tc_name := TSC } : State).perf_status % 65536) ∧
    ({ st_on with tc_name := TSC } : State).tc_name = TSC ∧
    SetFrequency { st_on with tc_name := TSC } 1000 =
      some ({ err := EBUSY, oldval := none },
        { st_on with tc_name := TSC, msr_ops := st_on.msr_ops ++ [MsrOp.rd MSR_PERF_STATUS] }) :=
  ⟨by decide, by decide, by decide,
    C5_set_frequency_busy { st_on with tc_name := TSC } PM17_130 1000
      (by decide) (by decide) (by decide)⟩

/-- C6: in an Enabled state whose status register reports the Code of no real
entry of the active table, ReadCurrentFrequency fails with InvalidState and
clears ActiveState; from the state it leaves, every sequence of handler calls
(reads and sets alike), whatever the registers and the timekeeping source hold
before each call, runs to its end with ActiveState still none. -/
theorem C6_self_disable_is_final (s : State) (tab : List freq_info)
    (hen : Enabled s tab)
    (hno : ∀ f ∈ realEntries tab, f.ID ≠ s.perf_status % 65536) :
    ∃ s1, ReadCurrentFrequency s = some ({ err := EINVAL, oldval := none }, s1) ∧
      s1.freq_list = none ∧
      ∀ steps : List Step, ∃ s2, runCalls s1 steps = some s2 ∧ s2.freq_list = none := by
  obtain ⟨hs, hend, -, -⟩ := hen
  refine ⟨_, sysctl_bad_status s _ tab hs hend hno, rfl, ?_⟩
  intro steps
  exact runCalls_disabled steps _ rfl

theorem C6_witness :
    Enabled { st_on with perf_status := 0x1234 } PM17_130 ∧
    (∀ f ∈ realEntries PM17_130,
      f.ID ≠ ({ st_on with perf_status := 0x1234 } : State).perf_status % 65536) ∧
    ∃ s1, ReadCurrentFrequency { st_on with perf_status := 0x1234 } =
        some ({ err := EINVAL, oldval := none }, s1) ∧
      s1.freq_list = none ∧
      ∀ steps : List Step, ∃ s2, runCalls s1 steps = some s2 ∧ s2.freq_list = none :=
  ⟨by decide, by decide,
    C6_self_disable_is_final { st_on with perf_status := 0x1234 } PM17_130
      (by decide) (by decide)⟩

/-- C7: whenever ActiveState is none, ReadCurrentFrequency and SetFrequency (for
every requested MHz, timekeeping source and register content) fail with
NotSupported, execute no register read or write, and leave the whole state,
ActiveState included, as it was. -/
theorem C7_disabled_not_supported (s : State) (requestedMHz : Int)
    (h : s.freq_list = none) :
    ReadCurrentFrequency s = some ({ err := EOPNOTSUPP, oldval := none }, s) ∧
    SetFrequency s requestedMHz = some ({ err := EOPNOTSUPP, oldval := none }, s) :=
  ⟨sysctl_disabled s _ h, sysctl_disabled s _ h⟩

theorem C7_witness :
    st_off.freq_list = none ∧
    ReadCurrentFrequency st_off = some ({ err := EOPNOTSUPP, oldval := none }, st_off) ∧
    SetFrequency st_off 1000 = some ({ err := EOPNOTSUPP, oldval := none }, st_off) :=
  ⟨by decide, C7_disabled_not_supported st_off 1000 (by decide)⟩

/-- C8: for a 64-bit `msr`, `findcpu` succeeds on `(vendor, msr, BUSCLK)` if and
only if some Registry entry has the key (12 vendor bytes, `msr >> 32`, `BUSCLK`)
and the table of the first such entry in Registry order has a real entry whose
Code is `msr & 0xffff`; on success ActiveState is that first entry's table and
`est_frequencies` is what the generation loop renders for that table, the rest
of the state being as before. -/
theorem C8_identify_iff (s : State) (vendor : List Char) (msr BUSCLK : Nat)
    (hmsr : msr < 2 ^ 64) :
    ((∃ s1, findcpu s vendor msr BUSCLK = some (0, s1)) ↔
      ∃ p tab, Registry.find? (keyMatch vendor (msr >>> 32) BUSCLK) = some p ∧
        p.freqtab = some tab ∧ ∃ f ∈ realEntries tab, f.ID = msr % 65536) ∧
    (∀ s1, findcpu s vendor msr BUSCLK = some (0, s1) →
      ∃ p tab text, Registry.find? (keyMatch vendor (msr >>> 32) BUSCLK) = some p ∧
        p.freqtab = some tab ∧ regenerate tab = some text ∧
        s1 = { s with freq_list := some tab, est_frequencies := text }) := by
  have hkey := shr32_lt msr hmsr
  -- what a success tells
  have hsucc : ∀ s1, findcpu s vendor msr BUSCLK = some (0, s1) →
      ∃ p tab text, Registry.find? (keyMatch vendor (msr >>> 32) BUSCLK) = some p ∧
        p.freqtab = some tab ∧ (∃ f ∈ realEntries tab, f.ID = msr % 65536) ∧
        regenerate tab = some text ∧
        s1 = { s with freq_list := some tab, est_frequencies := text } := by
    intro s1 hid
    cases hfind : Registry.find? (keyMatch vendor ((msr >>> 32) % 4294967296) BUSCLK) with
    | none =>
      rw [findcpu_no_model s vendor msr BUSCLK hfind] at hid
      simp [EOPNOTSUPP] at hid
    | some p =>
      have hp : p ∈ Registry := List.mem_of_find?_eq_some hfind
      obtain ⟨-, -, -, -, tab, htab, -⟩ := registry_ok p hp
      have htab' : p.freqtab = some tab := htab
      by_cases hyes : ∃ f ∈ realEntries tab, f.ID = msr % 65536
      · obtain ⟨text, htext, hres⟩ := findcpu_found s vendor msr BUSCLK p tab hfind htab' hyes
        rw [hres] at hid
        simp only [Option.some.injEq, Prod.mk.injEq, true_and] at hid
        rw [hkey] at hfind
        exact ⟨p, tab, text, hfind, htab', hyes, htext, hid.symm⟩
      · have hno : ∀ f ∈ realEntries tab, f.ID ≠ msr % 65536 := by
          intro f hf hfid
          exact hyes ⟨f, hf, hfid⟩
        rw [findcpu_no_setpoint s vendor msr BUSCLK p tab hfind htab' hno] at hid
        simp [EOPNOTSUPP] at hid
  refine ⟨⟨?_, ?_⟩, ?_⟩
  · rintro ⟨s1, hid⟩
    obtain ⟨p, tab, -, hfind, htab, hyes, -, -⟩ := hsucc s1 hid
    exact ⟨p, tab, hfind, htab, hyes⟩
  · rintro ⟨p, tab, hfind, htab, hyes⟩
    rw [← hkey] at hfind
    obtain ⟨text, -, hres⟩ := findcpu_found s vendor msr BUSCLK p tab hfind htab hyes
    exact ⟨_, hres⟩
  · intro s1 hid
    obtain ⟨p, tab, text, hfind, htab, -, htext, hs1⟩ := hsucc s1 hid
    exact ⟨p, tab, text, hfind, htab, htext, hs1⟩

theorem C8_witness :
    msr_PM17 < 2 ^ 64 ∧
    ((∃ s1, findcpu st_off GenuineIntel msr_PM17 100 = some (0, s1)) ↔
      ∃ p tab, Registry.find? (keyMatch GenuineIntel (msr_PM17 >>> 32) 100) = some p ∧
        p.freqtab = some tab ∧ ∃ f ∈ realEntries tab, f.ID = msr_PM17 % 65536) ∧
    (∀ s1, findcpu st_off GenuineIntel msr_PM17 100 = some (0, s1) →
      ∃ p tab text, Registry.find? (keyMatch GenuineIntel (msr_PM17 >>> 32) 100) = some p ∧
        p.freqtab = some tab ∧ regenerate tab = some text ∧
        s1 = { st_off with freq_list := some tab, est_frequencies := text }) :=
  ⟨by decide, C8_identify_iff st_off GenuineIntel msr_PM17 100 (by decide)⟩

/-- C9: for a 64-bit `msr`, when no Registry entry has the key (12 vendor bytes,
`msr >> 32`, `BUSCLK`), the case `msr >> 32 = 0` included, `findcpu` returns
EOPNOTSUPP and leaves the whole state as it was: ActiveState stays none if it
was none, and `est_frequencies` is unchanged. -/
theorem C9_identify_unknown_model (s : State) (vendor : List Char) (msr BUSCLK : Nat)
    (hmsr : msr < 2 ^ 64)
    (hno : ∀ p ∈ Registry, keyMatch vendor (msr >>> 32) BUSCLK p = false) :
    findcpu s vendor msr BUSCLK = some (EOPNOTSUPP, s) := by
  apply findcpu_no_model
  rw [shr32_lt msr hmsr, List.find?_eq_none]
  intro p hp
  simp [hno p hp]

theorem C9_witness :
    (0x1131 : Nat) < 2 ^ 64 ∧
    (∀ p ∈ Registry, keyMatch GenuineIntel ((0x1131 : Nat) >>> 32) 100 p = false) ∧
    findcpu st_off GenuineIntel 0x1131 100 = some (EOPNOTSUPP, st_off) :=
  ⟨by decide, by decide,
    C9_identify_unknown_model st_off GenuineIntel 0x1131 100 (by decide) (by decide)⟩

/-- C10: for every Registry entry `r` and every 16-bit code that is the Code of
no real entry of the table of `r`, `findcpu` on the vendor of `r`, the status
value `(r.ID << 32) | code` and the bus clock of `r` returns EOPNOTSUPP and
leaves the whole state as it was: ActiveState stays none if it was none, and
`est_frequencies` is unchanged. -/
theorem C10_identify_unknown_setpoint (s : State) (r : cpu_info) (v : List Char)
    (tab : List freq_info) (code : Nat)
    (hr : r ∈ Registry) (hv : r.vendor = some v) (htab : r.freqtab = some tab)
    (hcode : code < 65536)
    (hno : ∀ f ∈ realEntries tab, f.ID ≠ code) :
    findcpu s v ((r.ID <<< 32) ||| code) r.BUSCLK = some (EOPNOTSUPP, s) := by
  obtain ⟨-, -, hid32, -, -⟩ := registry_ok r hr
  have hkey : (((r.ID <<< 32) ||| code) >>> 32) % 4294967296 = r.ID := by
    rw [shl32_or_shr r.ID code hcode]
    exact Nat.mod_eq_of_lt hid32
  have hfind := registry_first_match r hr v hv
  apply findcpu_no_setpoint s v _ r.BUSCLK r tab (by rw [hkey]; exact hfind) htab
  rw [shl32_or_low r.ID code hcode]
  exact hno

theorem C10_witness :
    INTEL_100 PM17_130 1700 1484 600 956 ∈ Registry ∧
    (INTEL_100 PM17_130 1700 1484 600 956).vendor = some GenuineIntel ∧
    (INTEL_100 PM17_130 1700 1484 600 956).freqtab = some PM17_130 ∧
    (0 : Nat) < 65536 ∧
    (∀ f ∈ realEntries PM17_130, f.ID ≠ 0) ∧
    findcpu st_off GenuineIntel (((INTEL_100 PM17_130 1700 1484 600 956).ID <<< 32) ||| 0)
      (INTEL_100 PM17_130 1700 1484 600 956).BUSCLK = some (EOPNOTSUPP, st_off) :=
  ⟨by decide, by decide, by decide, by decide, by decide,
    C10_identify_unknown_setpoint st_off (INTEL_100 PM17_130 1700 1484 600 956) GenuineIntel
      PM17_130 0 (by decide) (by decide) (by decide) (by decide) (by decide)⟩

/-! ## Frame lemmas -/

/-- One call of the handler, whatever the request: the status register keeps
its value; a call that fails or carries no new value leaves the control
register as it was and executes at most the read of the status register; a
call with a new value that succeeds executes the two reads and one write to
the control register; a call that returns 0 leaves `freq_list` as it was. -/
theorem sysctl_frame (s s1 : State) (req : sysctl_req) (r : Reply)
    (h : est_sysctl_mhz s req = some (r, s1)) :
    s1.perf_status = s.perf_status ∧
    s1.est_frequencies = s.est_frequencies ∧
    (s1.freq_list = s.freq_list ∨ (s.freq_list ≠ none ∧ s1.freq_list = none)) ∧
    (r.err = 0 → s1.freq_list = s.freq_list) ∧
    ((req.newptr = none ∨ r.err ≠ 0) →
      s1.perf_ctl = s.perf_ctl ∧
      (s1.msr_ops = s.msr_ops ∨ s1.msr_ops = s.msr_ops ++ [MsrOp.rd MSR_PERF_STATUS])) ∧
    ((req.newptr ≠ none ∧ r.err = 0) →
      ∃ v, s1.perf_ctl = v ∧
        s1.msr_ops = s.msr_ops ++ [MsrOp.rd MSR_PERF_STATUS, MsrOp.rd MSR_PERF_CTL,
          MsrOp.wr MSR_PERF_CTL v]) := by
  cases hfl : s.freq_list with
  | none =>
    simp only [est_sysctl_mhz, hfl, Option.some.injEq, Prod.mk.injEq] at h
    obtain ⟨rfl, rfl⟩ := h
    simp [EOPNOTSUPP, hfl]
  | some tab =>
    cases hsc : scan_status (s.perf_status % 65536) tab with
    | none => simp [est_sysctl_mhz, hfl, rdmsr_status, and_ffff, hsc] at h
    | some f =>
      by_cases hf0 : f.MHz = 0
      · simp only [est_sysctl_mhz, hfl, rdmsr_status, and_ffff, hsc, hf0, if_true,
          Option.some.injEq, Prod.mk.injEq] at h
        obtain ⟨rfl, rfl⟩ := h
        simp [EINVAL, rdmsr_st, hfl]
      · cases hnp : req.newptr with
        | none =>
          simp only [est_sysctl_mhz, hfl, rdmsr_status, and_ffff, hsc, hf0, if_false, hnp,
            Option.some.injEq, Prod.mk.injEq] at h
          obtain ⟨rfl, rfl⟩ := h
          simp [rdmsr_st, hfl]
        | some pr =>
          obtain ⟨err, w⟩ := pr
          by_cases htc : s.tc_name = ['T', 'S', 'C']
          · simp only [est_sysctl_mhz, hfl, rdmsr_status, and_ffff, hsc, hf0, if_false, hnp,
              rdmsr_st, htc, if_true, Option.some.injEq, Prod.mk.injEq] at h
            obtain ⟨rfl, rfl⟩ := h
            simp [EBUSY, hfl]
          · by_cases herr : err = 0
            · cases hw : scan_wanted w tab with
              | none =>
                simp [est_sysctl_mhz, hfl, rdmsr_status, and_ffff, hsc, hf0, hnp, rdmsr_st,
                  htc, herr, hw] at h
              | some g =>
                by_cases hg0 : g.MHz = 0
                · simp only [est_sysctl_mhz, hfl, rdmsr_status, and_ffff, hsc, hf0, if_false,
                    hnp, rdmsr_st, htc, herr, ne_eq, not_true_eq_false, hw, hg0, if_true,
                    Option.some.injEq, Prod.mk.injEq] at h
                  obtain ⟨rfl, rfl⟩ := h
                  simp [EOPNOTSUPP, hfl]
                · simp only [est_sysctl_mhz, hfl, rdmsr_status, and_ffff, hsc, hf0, if_false,
                    hnp, rdmsr_st, htc, herr, ne_eq, not_true_eq_false, hw, hg0,
                    Option.some.injEq, Prod.mk.injEq] at h
                  obtain ⟨rfl, rfl⟩ := h
                  simp [wrmsr, MSR_PERF_CTL, MSR_PERF_STATUS, hfl]
            · simp only [est_sysctl_mhz, hfl, rdmsr_status, and_ffff, hsc, hf0, if_false, hnp,
                rdmsr_st, htc, ne_eq, herr, not_false_eq_true, if_true,
                Option.some.injEq, Prod.mk.injEq] at h
              obtain ⟨rfl, rfl⟩ := h
              simp [herr, hfl]

/-- One call of `findcpu`: either it fails and leaves the state as it was, or
it returns 0 and replaces `freq_list` by the table of a Registry entry and
`est_frequencies` by the rendering of that table, nothing else. -/
theorem findcpu_frame (s s1 : State) (vendor : List Char) (msr BUSCLK : Nat) (e : Int)
    (h : findcpu s vendor msr BUSCLK = some (e, s1)) :
    (e = EOPNOTSUPP ∧ s1 = s) ∨
    (e = 0 ∧ ∃ p ∈ Registry, ∃ tab text, p.freqtab = some tab ∧
      regenerate tab = some text ∧
      s1 = { s with freq_list := some tab, est_frequencies := text }) := by
  cases hfind : Registry.find? (keyMatch vendor ((msr >>> 32) % 4294967296) BUSCLK) with
  | none =>
    rw [findcpu_no_model s vendor msr BUSCLK hfind] at h
    simp only [Option.some.injEq, Prod.mk.injEq] at h
    exact Or.inl ⟨h.1.symm, h.2.symm⟩
  | some p =>
    have hp : p ∈ Registry := List.mem_of_find?_eq_some hfind
    obtain ⟨-, -, -, -, tab, htab, -⟩ := registry_ok p hp
    have htab' : p.freqtab = some tab := htab
    by_cases hyes : ∃ f ∈ realEntries tab, f.ID = msr % 65536
    · obtain ⟨text, htext, hres⟩ := findcpu_found s vendor msr BUSCLK p tab hfind htab' hyes
      rw [hres] at h
      simp only [Option.some.injEq, Prod.mk.injEq] at h
      exact Or.inr ⟨h.1.symm, p, hp, tab, text, htab', htext, h.2.symm⟩
    · have hno : ∀ f ∈ realEntries tab, f.ID ≠ msr % 65536 := by
        intro f hf hfid
        exact hyes ⟨f, hf, hfid⟩
      rw [findcpu_no_setpoint s vendor msr BUSCLK p tab hfind htab' hno] at h
      simp only [Option.some.injEq, Prod.mk.injEq] at h
      exact Or.inl ⟨h.1.symm, h.2.symm⟩

/-- One call keeps the link between `freq_list` and `est_frequencies`. -/
theorem callCore_inv (s s1 : State) (c : Call) (e : Int)
    (h : callCore s c = some (e, s1)) (hinv : DiagInv s) : DiagInv s1 := by
  cases c with
  | identify vendor msr BUSCLK =>
    simp only [callCore] at h
    rcases findcpu_frame _ _ _ _ _ _ h with ⟨-, hs1⟩ | ⟨-, p, hp, tab, text, htab, htext, hs1⟩
    · subst hs1
      exact hinv
    · subst hs1
      exact Or.inr ⟨p, hp, tab, htab, htext, Or.inl rfl⟩
  | sysctl req =>
    simp only [callCore] at h
    cases hh : est_sysctl_mhz s req with
    | none => simp [hh] at h
    | some res =>
      obtain ⟨r, s2⟩ := res
      simp only [hh, Option.some.injEq, Prod.mk.injEq] at h
      obtain ⟨-, hs2⟩ := h
      subst hs2
      obtain ⟨-, hest, hfl, -, -, -⟩ := sysctl_frame _ _ _ _ hh
      rcases hinv with ⟨h1, h2⟩ | ⟨p, hp, tab, htab, htext, hcase⟩
      · left
        refine ⟨?_, by rw [hest, h2]⟩
        rcases hfl with hfl | ⟨-, hfl⟩
        · rw [hfl, h1]
        · exact hfl
      · right
        refine ⟨p, hp, tab, htab, by rw [hest]; exact htext, ?_⟩
        rcases hfl with hfl | ⟨-, hfl⟩
        · rw [hfl]
          exact hcase
        · exact Or.inr hfl

/-- Every sequence of calls keeps the link between `freq_list` and
`est_frequencies`. -/
theorem runCore_inv (steps : List CoreStep) :
    ∀ s s1 : State, runCore s steps = some s1 → DiagInv s → DiagInv s1 := by
  induction steps with
  | nil =>
    intro s s1 h hinv
    simp only [runCore, Option.some.injEq] at h
    subst h
    exact hinv
  | cons st rest ih =>
    intro s s1 h hinv
    simp only [runCore] at h
    split at h
    · simp at h
    · rename_i e s2 hc
      exact ih s2 s1 h (callCore_inv _ s2 st.call e hc hinv)

/-! ## The generation loop -/

theorem toDigitsCore_length_le (k : Nat) :
    ∀ (fuel n : Nat) (ds : List Char), n < 10 ^ (k + 1) →
      (Nat.toDigitsCore 10 fuel n ds).length ≤ ds.length + (k + 1) := by
  induction k with
  | zero =>
    intro fuel n ds hn
    cases fuel with
    | zero => simp [Nat.toDigitsCore]
    | succ fuel =>
      have h0 : n / 10 = 0 := by omega
      simp [Nat.toDigitsCore, h0]
  | succ k ih =>
    intro fuel n ds hn
    cases fuel with
    | zero => simp [Nat.toDigitsCore]
    | succ fuel =>
      by_cases h0 : n / 10 = 0
      · simp [Nat.toDigitsCore, h0]
      · have hlt : n / 10 < 10 ^ (k + 1) := by
          rw [Nat.div_lt_iff_lt_mul (by decide)]
          calc n < 10 ^ (k + 1 + 1) := hn
            _ = 10 ^ (k + 1) * 10 := by rw [Nat.pow_succ]
        have := ih fuel (n / 10) (Nat.digitChar (n % 10) :: ds) hlt
        simp only [Nat.toDigitsCore, h0, if_false]
        simp only [List.length_cons] at this
        omega

theorem toDigitsCore_length_ge (fuel : Nat) :
    ∀ (n : Nat) (ds : List Char), ds.length ≤ (Nat.toDigitsCore 10 fuel n ds).length := by
  induction fuel with
  | zero => intro n ds; simp [Nat.toDigitsCore]
  | succ fuel ih =>
    intro n ds
    by_cases h0 : n / 10 = 0
    · simp [Nat.toDigitsCore, h0]
    · have := ih (n / 10) (Nat.digitChar (n % 10) :: ds)
      simp only [Nat.toDigitsCore, h0, if_false]
      simp only [List.length_cons] at this
      omega

/-- A number below 10000 has at most 4 decimal digits. -/
theorem digits_length_le (n : Nat) (h : n < 10000) : (Nat.toDigits 10 n).length ≤ 4 := by
  have := toDigitsCore_length_le 3 (n + 1) n [] (by simpa using h)
  simpa [Nat.toDigits] using this

/-- Every number has at least one decimal digit. -/
theorem digits_length_pos (n : Nat) : 1 ≤ (Nat.toDigits 10 n).length := by
  unfold Nat.toDigits
  by_cases h0 : n / 10 = 0
  · simp [Nat.toDigitsCore, h0]
  · have := toDigitsCore_length_ge n (n / 10) [Nat.digitChar (n % 10)]
    simp only [Nat.toDigitsCore, h0, if_false]
    simp only [List.length_cons, List.length_nil] at this
    omega

theorem intercalate_cons {α : Type} (sep : List α) (xs : List (List α)) :
    ∀ x : List α, List.intercalate sep (x :: xs) = x ++ (xs.map (fun y => sep ++ y)).flatten := by
  induction xs with
  | nil => intro x; simp [List.intercalate, List.intersperse]
  | cons y ys ih =>
    intro x
    have h := ih y
    simp only [List.intercalate] at h ⊢
    simp [List.intersperse, h]

theorem scan_end_eq (tab : List freq_info) (hend : ∃ f ∈ tab, f.ID = 0) :
    scan_end tab = some (idEntries tab).length := by
  induction tab with
  | nil => simp at hend
  | cons a rest ih =>
    by_cases h0 : a.ID = 0
    · simp [scan_end, idEntries, List.takeWhile_cons, h0]
    · have hend' : ∃ f ∈ rest, f.ID = 0 := by
        obtain ⟨f, hf, hf0⟩ := hend
        rcases List.mem_cons.mp hf with rfl | hf
        · exact absurd hf0 h0
        · exact ⟨f, hf, hf0⟩
      have := ih hend'
      simp only [idEntries] at this
      simp [scan_end, idEntries, List.takeWhile_cons, h0, this]

theorem get_idEntries (tab : List freq_info) (i : Nat) (hi : i < (idEntries tab).length) :
    tab.get? i = (idEntries tab).get? i := by
  have h := List.takeWhile_append_dropWhile (fun f : freq_info => f.ID != 0) tab
  have hget : (idEntries tab ++ tab.dropWhile (fun f : freq_info => f.ID != 0)).get? i =
      (idEntries tab).get? i := by
    simp only [List.get?_eq_getElem?]
    exact List.getElem?_append_left hi
  simp only [idEntries] at hget ⊢
  rw [h] at hget
  exact hget

/-- One pass of the loop body when the piece and the text fit their buffers. -/
theorem emit_freq_eq (tab : List freq_info) (i : Nat) (buf : List Char) (f : freq_info)
    (hget : tab.get? i = some f) (hd : (Nat.toDigits 10 f.MHz).length ≤ 4)
    (hbuf : buf.length + 5 ≤ 79) :
    emit_freq tab i buf =
      some (buf ++ (if buf.isEmpty then Nat.toDigits 10 f.MHz
        else ' ' :: Nat.toDigits 10 f.MHz)) := by
  have h6 : ¬ 6 ≤ (if buf.isEmpty = true then sprintf_d f.MHz
      else ' ' :: sprintf_d f.MHz).length := by
    split <;> simp [sprintf_d] <;> omega
  have h80 : ¬ 80 ≤ (buf ++ (if buf.isEmpty = true then sprintf_d f.MHz
      else ' ' :: sprintf_d f.MHz)).length := by
    rw [List.length_append]
    omega
  simp only [emit_freq, hget, h6, h80, if_false]
  simp [sprintf_d]

theorem take_succ_of_get (l : List freq_info) (i : Nat) (f : freq_info)
    (h : l.get? i = some f) : (l.take (i + 1)).reverse = f :: (l.take i).reverse := by
  rw [List.take_succ, ← List.get?_eq_getElem?, h]
  simp

/-- The loop entered at index `i` with a non-empty text appends, for the
entries at `i`, `i - 1`, ..., `0`, a space and the digits. -/
theorem gen_loop_tail (tab : List freq_info)
    (hm : ∀ f ∈ idEntries tab, f.MHz < 10000) :
    ∀ (i : Nat) (buf : List Char), buf ≠ [] → i < (idEntries tab).length →
      buf.length + 5 * (i + 1) ≤ 79 →
      gen_loop tab i buf = some (buf ++
        ((((idEntries tab).take (i + 1)).reverse.map
          (fun f => [' '] ++ Nat.toDigits 10 f.MHz)).flatten)) := by
  intro i
  induction i with
  | zero =>
    intro buf hne hi hb
    obtain ⟨f, hf⟩ : ∃ f, (idEntries tab).get? 0 = some f := by
      cases hl : idEntries tab with
      | nil => simp [hl] at hi
      | cons a rest => exact ⟨a, rfl⟩
    have hmem : f ∈ idEntries tab := List.get?_mem hf
    have hget : tab.get? 0 = some f := by rw [get_idEntries tab 0 hi, hf]
    have hem := emit_freq_eq tab 0 buf f hget (digits_length_le _ (hm f hmem)) (by omega)
    have hnb : buf.isEmpty = false := by
      cases buf with
      | nil => exact absurd rfl hne
      | cons c cs => rfl
    rw [take_succ_of_get _ 0 f hf]
    simp [gen_loop, hem, hnb]
  | succ i ih =>
    intro buf hne hi hb
    obtain ⟨f, hf⟩ : ∃ f, (idEntries tab).get? (i + 1) = some f := by
      rw [List.get?_eq_getElem?]
      exact ⟨(idEntries tab)[i + 1], List.getElem?_eq_getElem hi⟩
    have hmem : f ∈ idEntries tab := List.get?_mem hf
    have hget : tab.get? (i + 1) = some f := by rw [get_idEntries tab (i + 1) hi, hf]
    have hd := digits_length_le _ (hm f hmem)
    have hem := emit_freq_eq tab (i + 1) buf f hget hd (by omega)
    have hnb : buf.isEmpty = false := by
      cases buf with
      | nil => exact absurd rfl hne
      | cons c cs => rfl
    simp only [hnb, Bool.false_eq_true, if_false] at hem
    have hrec := ih (buf ++ ' ' :: Nat.toDigits 10 f.MHz) (by simp) (by omega)
      (by simp only [List.length_append, List.length_cons]; omega)
    rw [take_succ_of_get _ (i + 1) f hf]
    simp only [gen_loop, hem, hrec]
    simp

/-- The loop entered at index `i` with an empty text renders the entries at
`i`, `i - 1`, ..., `0`, joined by single spaces. -/
theorem gen_loop_start (tab : List freq_info)
    (hm : ∀ f ∈ idEntries tab, f.MHz < 10000)
    (i : Nat) (hi : i < (idEntries tab).length) (hb : i + 1 ≤ 16) :
    gen_loop tab i [] = some (render ((idEntries tab).take (i + 1))) := by
  obtain ⟨f, hf⟩ : ∃ f, (idEntries tab).get? i = some f := by
    rw [List.get?_eq_getElem?]
    exact ⟨(idEntries tab)[i], List.getElem?_eq_getElem hi⟩
  have hmem : f ∈ idEntries tab := List.get?_mem hf
  have hget : tab.get? i = some f := by rw [get_idEntries tab i hi, hf]
  have hd := digits_length_le _ (hm f hmem)
  have hpos := digits_length_pos f.MHz
  have hem := emit_freq_eq tab i [] f hget hd (by simp)
  simp only [List.isEmpty_nil, if_true, List.nil_append] at hem
  simp only [render]
  rw [take_succ_of_get _ i f hf, List.map_cons, intercalate_cons]
  cases i with
  | zero => simp [gen_loop, hem]
  | succ j =>
    have hne : Nat.toDigits 10 f.MHz ≠ [] := by
      intro h0
      rw [h0] at hpos
      simp at hpos
    have hrec := gen_loop_tail tab hm j (Nat.toDigits 10 f.MHz) hne (by omega) (by omega)
    simp only [gen_loop, hem, hrec]
    simp [Function.comp_def]

/-- The generation loop on a terminated table with 1 to 16 entries before the
terminator, each below 10000 MHz. -/
theorem regenerate_eq (tab : List freq_info) (hend : ∃ f ∈ tab, f.ID = 0)
    (h1 : 1 ≤ (idEntries tab).length) (h16 : (idEntries tab).length ≤ 16)
    (hm : ∀ f ∈ idEntries tab, f.MHz < 10000) :
    regenerate tab = some (render (idEntries tab)) := by
  obtain ⟨n, hn⟩ : ∃ n, (idEntries tab).length = n + 1 := ⟨(idEntries tab).length - 1, by omega⟩
  have hstart := gen_loop_start tab hm n (by omega) (by omega)
  rw [← hn, List.take_length] at hstart
  simp only [regenerate, scan_end_eq tab hend, hn]
  exact hstart

theorem flatten_pieces_length (xs : List (List Char)) (h : ∀ x ∈ xs, x.length ≤ 4) :
    ((xs.map (fun y => [' '] ++ y)).flatten).length ≤ 5 * xs.length := by
  induction xs with
  | nil => simp
  | cons x rest ih =>
    have hx := h x (by simp)
    have hrest := ih (fun y hy => h y (by simp [hy]))
    simp only [List.map_cons, List.flatten_cons, List.length_append, List.length_cons,
      List.length_nil] at hrest ⊢
    omega

/-- The rendering of `n ≥ 1` entries below 10000 MHz has at most `5 n - 1`
characters. -/
theorem render_length (fs : List freq_info) (h1 : 1 ≤ fs.length)
    (hm : ∀ f ∈ fs, f.MHz < 10000) : (render fs).length + 1 ≤ 5 * fs.length := by
  have hall : ∀ x ∈ fs.reverse.map (fun f => Nat.toDigits 10 f.MHz), x.length ≤ 4 := by
    intro x hx
    obtain ⟨f, hf, rfl⟩ := List.mem_map.mp hx
    exact digits_length_le _ (hm f (List.mem_reverse.mp hf))
  have hlen : (fs.reverse.map (fun f => Nat.toDigits 10 f.MHz)).length = fs.length := by simp
  simp only [render]
  cases hxs : fs.reverse.map (fun f => Nat.toDigits 10 f.MHz) with
  | nil =>
    rw [hxs] at hlen
    simp at hlen
    omega
  | cons x rest =>
    rw [hxs] at hall hlen
    have hx := hall x (by simp)
    have hrest := flatten_pieces_length rest (fun y hy => hall y (by simp [hy]))
    rw [intercalate_cons, List.length_append]
    simp only [List.length_cons] at hlen
    omega

theorem idEntries_eq_realEntries (tab : List freq_info)
    (h : ∀ f ∈ tab, f.ID = 0 ↔ f.MHz = 0) : idEntries tab = realEntries tab :=
  idEntries_eq tab h

theorem digitChar_ne_space : ∀ m < 10, Nat.digitChar m ≠ ' ' := by decide

theorem toDigitsCore_no_space (fuel : Nat) :
    ∀ (n : Nat) (ds : List Char), (∀ c ∈ ds, c ≠ ' ') →
      ∀ c ∈ Nat.toDigitsCore 10 fuel n ds, c ≠ ' ' := by
  induction fuel with
  | zero => intro n ds hds; simpa [Nat.toDigitsCore] using hds
  | succ fuel ih =>
    intro n ds hds
    have hd : Nat.digitChar (n % 10) ≠ ' ' := digitChar_ne_space _ (Nat.mod_lt _ (by decide))
    have hds' : ∀ c ∈ Nat.digitChar (n % 10) :: ds, c ≠ ' ' := by
      intro c hc
      rcases List.mem_cons.mp hc with rfl | hc
      · exact hd
      · exact hds c hc
    by_cases h0 : n / 10 = 0
    · simpa [Nat.toDigitsCore, h0] using hds'
    · simp only [Nat.toDigitsCore, h0, if_false]
      exact ih (n / 10) _ hds'

/-- The decimal digits of a number hold no space. -/
theorem digits_no_space (n : Nat) : ∀ c ∈ Nat.toDigits 10 n, c ≠ ' ' :=
  toDigitsCore_no_space (n + 1) n [] (by simp)

/-! ## Claims on the catalogue -/

/-- C11, as stated, fails: for the first Registry entry (table `PM17_130`) the
low 16 bits of the CombinedID are the Code of the 1700 MHz entry, not of the
600 MHz entry, and the high 16 bits are the Code of the 600 MHz entry, not of
the 1700 MHz entry. -/
theorem C11_counterexample :
    INTEL_100 PM17_130 1700 1484 600 956 ∈ Registry ∧
    (INTEL_100 PM17_130 1700 1484 600 956).freqtab = some PM17_130 ∧
    (realEntries PM17_130).head? = some (FREQ_INFO_100 1700 1484) ∧
    (realEntries PM17_130).getLast? = some (FREQ_INFO_100 600 956) ∧
    (INTEL_100 PM17_130 1700 1484 600 956).ID % 65536 ≠ (FREQ_INFO_100 600 956).ID ∧
    (INTEL_100 PM17_130 1700 1484 600 956).ID / 65536 ≠ (FREQ_INFO_100 1700 1484).ID := by
  decide

set_option maxRecDepth 100000 in
/-- C11, amended: for every entry of the Registry, with `hi` the first entry of
its table and `lo` the last entry before the terminator, every real entry has
its MHz between those of `lo` and `hi`, the low 16 bits of the CombinedID are
the Code of `hi` (the highest MHz) and the high 16 bits are the Code of `lo`
(the lowest MHz). -/
theorem C11_combined_id_halves :
    ∀ p ∈ Registry, ∃ tab ∈ p.freqtab,
      ∃ hi ∈ (realEntries tab).head?, ∃ lo ∈ (realEntries tab).getLast?,
        (∀ f ∈ realEntries tab, lo.MHz ≤ f.MHz ∧ f.MHz ≤ hi.MHz) ∧
        p.ID % 65536 = hi.ID ∧ p.ID / 65536 = lo.ID := by
  decide

theorem C11_witness :
    INTEL_100 PM_738_90 1400 1116 600 988 ∈ Registry ∧
    ∃ tab ∈ (INTEL_100 PM_738_90 1400 1116 600 988).freqtab,
      ∃ hi ∈ (realEntries tab).head?, ∃ lo ∈ (realEntries tab).getLast?,
        (∀ f ∈ realEntries tab, lo.MHz ≤ f.MHz ∧ f.MHz ≤ hi.MHz) ∧
        (INTEL_100 PM_738_90 1400 1116 600 988).ID % 65536 = hi.ID ∧
        (INTEL_100 PM_738_90 1400 1116 600 988).ID / 65536 = lo.ID :=
  ⟨by decide, C11_combined_id_halves (INTEL_100 PM_738_90 1400 1116 600 988) (by decide)⟩

set_option maxRecDepth 100000 in
/-- C12: for every entry of the Registry, the real entries of its table are
strictly descending by MHz, there is at least one of them, and the table is its
real entries followed by one last entry, the terminator `{ 0, 0 }` with
MHz = 0. -/
theorem C12_tables_descending_terminated :
    ∀ p ∈ Registry, ∃ tab ∈ p.freqtab,
      (realEntries tab).Pairwise (fun a b => b.MHz < a.MHz) ∧
      1 ≤ (realEntries tab).length ∧
      (∀ f ∈ realEntries tab, f.MHz ≠ 0) ∧
      tab = realEntries tab ++ [{ MHz := 0, ID := 0 }] := by
  decide

theorem C12_witness :
    INTEL_100 PM_765A_90 2100 1340 600 988 ∈ Registry ∧
    ∃ tab ∈ (INTEL_100 PM_765A_90 2100 1340 600 988).freqtab,
      (realEntries tab).Pairwise (fun a b => b.MHz < a.MHz) ∧
      1 ≤ (realEntries tab).length ∧
      (∀ f ∈ realEntries tab, f.MHz ≠ 0) ∧
      tab = realEntries tab ++ [{ MHz := 0, ID := 0 }] :=
  ⟨by decide,
    C12_tables_descending_terminated (INTEL_100 PM_765A_90 2100 1340 600 988) (by decide)⟩

/-! ## Claims on the Enumerator -/

theorem takeWhile_append_stop {α : Type} (p : α → Bool) (l : List α) (z : α) (rest : List α)
    (hl : ∀ x ∈ l, p x = true) (hz : p z = false) :
    (l ++ z :: rest).takeWhile p = l := by
  induction l with
  | nil => simp [List.takeWhile_cons, hz]
  | cons a as ih =>
    have ha := hl a (by simp)
    have := ih (fun x hx => hl x (by simp [hx]))
    simp [List.takeWhile_cons, ha, this]

/-- When the real entries have a non-zero Code and the entry after them has
Code 0, the loops of `findcpu` see the real entries and find the terminator. -/
theorem idEntries_of_sentinel (tab : List freq_info)
    (hsent : ∃ z rest, tab = realEntries tab ++ z :: rest ∧ z.ID = 0)
    (hcode : ∀ f ∈ realEntries tab, f.ID ≠ 0) :
    idEntries tab = realEntries tab ∧ ∃ f ∈ tab, f.ID = 0 := by
  obtain ⟨z, rest, htab, hz⟩ := hsent
  constructor
  · have h1 : idEntries tab = idEntries (realEntries tab ++ z :: rest) :=
      congrArg idEntries htab
    rw [h1]
    exact takeWhile_append_stop _ _ z rest (by intro x hx; simpa using hcode x hx)
      (by simp [hz])
  · refine ⟨z, ?_, hz⟩
    rw [htab]
    simp

set_option maxRecDepth 100000 in
/-- C13, as stated, fails.  (a) `tab_zero_code` is a table of the data model
with three real entries, 1000, 600 and 50 MHz, the last with Code 0: the loop
takes that entry for the terminator and renders "600 1000", not
"50 600 1000".  (b) `tab_sentinel_code` has one real entry and a terminator
with a Code other than 0: the scan for `ID = 0` leaves the array.  (c) `tab_17`
has 17 real entries, strictly descending and below 10000 MHz: its text of 84
characters does not fit `char est_frequencies[80]`.  (d) `tab_14` has 14 real
entries of five digits: its text of 83 characters does not fit either. -/
theorem C13_counterexample :
    (FrequencyTable tab_zero_code ∧ (realEntries tab_zero_code).length = 3 ∧
      (∀ f ∈ realEntries tab_zero_code, f.MHz < 10000) ∧
      regenerate tab_zero_code = some ['6', '0', '0', ' ', '1', '0', '0', '0'] ∧
      render (realEntries tab_zero_code) =
        ['5', '0', ' ', '6', '0', '0', ' ', '1', '0', '0', '0'] ∧
      regenerate tab_zero_code ≠ some (render (realEntries tab_zero_code))) ∧
    (FrequencyTable tab_sentinel_code ∧ (realEntries tab_sentinel_code).length = 1 ∧
      (∀ f ∈ realEntries tab_sentinel_code, f.MHz < 10000 ∧ f.ID ≠ 0) ∧
      regenerate tab_sentinel_code = none) ∧
    (FrequencyTable tab_17 ∧ (realEntries tab_17).length = 17 ∧
      (∀ f ∈ tab_17, f.ID = 0 ↔ f.MHz = 0) ∧
      (∀ f ∈ realEntries tab_17, f.MHz < 10000) ∧
      (render (realEntries tab_17)).length = 84 ∧
      regenerate tab_17 = none) ∧
    (FrequencyTable tab_14 ∧ (realEntries tab_14).length = 14 ∧
      (∀ f ∈ tab_14, f.ID = 0 ↔ f.MHz = 0) ∧
      (render (realEntries tab_14)).length = 83 ∧
      regenerate tab_14 = none) := by
  decide

/-- C13, amended: for every table whose real entries all have a non-zero Code
and are followed by a terminator with Code 0, with between 1 and 16 real
entries, each below 10000 MHz, the generation loop of `findcpu` produces
exactly the decimal renderings of the MHz of the real entries in reverse table
order, joined by single spaces; each rendering is non-empty and holds no space,
so the text has no leading or trailing space; and for a strictly descending
table the values appear in strictly ascending order. -/
theorem C13_enumerator_renders (tab : List freq_info)
    (hsent : ∃ z rest, tab = realEntries tab ++ z :: rest ∧ z.ID = 0)
    (hcode : ∀ f ∈ realEntries tab, f.ID ≠ 0)
    (h1 : 1 ≤ (realEntries tab).length) (h16 : (realEntries tab).length ≤ 16)
    (hm : ∀ f ∈ realEntries tab, f.MHz < 10000) :
    regenerate tab = some (List.intercalate [' ']
      ((realEntries tab).reverse.map (fun f => Nat.toDigits 10 f.MHz))) ∧
    (∀ f ∈ realEntries tab,
      Nat.toDigits 10 f.MHz ≠ [] ∧ ∀ c ∈ Nat.toDigits 10 f.MHz, c ≠ ' ') ∧
    ((realEntries tab).Pairwise (fun a b => b.MHz < a.MHz) →
      ((realEntries tab).reverse.map (fun f => f.MHz)).Pairwise (fun a b => a < b)) := by
  obtain ⟨heq, hend⟩ := idEntries_of_sentinel tab hsent hcode
  have hreg := regenerate_eq tab hend (by rw [heq]; exact h1) (by rw [heq]; exact h16)
    (by rw [heq]; exact hm)
  rw [heq] at hreg
  refine ⟨hreg, ?_, ?_⟩
  · intro f _
    refine ⟨?_, digits_no_space f.MHz⟩
    intro h0
    have := digits_length_pos f.MHz
    rw [h0] at this
    simp at this
  · intro hdesc
    rw [List.pairwise_map, List.pairwise_reverse]
    exact hdesc

theorem C13_witness :
    (∃ z rest, PM17_130 = realEntries PM17_130 ++ z :: rest ∧ z.ID = 0) ∧
    (∀ f ∈ realEntries PM17_130, f.ID ≠ 0) ∧
    1 ≤ (realEntries PM17_130).length ∧ (realEntries PM17_130).length ≤ 16 ∧
    (∀ f ∈ realEntries PM17_130, f.MHz < 10000) ∧
    List.intercalate [' ']
        ((realEntries PM17_130).reverse.map (fun f => Nat.toDigits 10 f.MHz)) =
      ['6', '0', '0', ' ', '8', '0', '0', ' ', '1', '0', '0', '0', ' ',
        '1', '2', '0', '0', ' ', '1', '4', '0', '0', ' ', '1', '7', '0', '0'] ∧
    (regenerate PM17_130 = some (List.intercalate [' ']
      ((realEntries PM17_130).reverse.map (fun f => Nat.toDigits 10 f.MHz))) ∧
    (∀ f ∈ realEntries PM17_130,
      Nat.toDigits 10 f.MHz ≠ [] ∧ ∀ c ∈ Nat.toDigits 10 f.MHz, c ≠ ' ') ∧
    ((realEntries PM17_130).Pairwise (fun a b => b.MHz < a.MHz) →
      ((realEntries PM17_130).reverse.map (fun f => f.MHz)).Pairwise (fun a b => a < b))) :=
  ⟨⟨{ MHz := 0, ID := 0 }, [], by decide, by decide⟩, by decide, by decide, by decide,
    by decide, by decide,
    C13_enumerator_renders PM17_130 ⟨{ MHz := 0, ID := 0 }, [], by decide, by decide⟩
      (by decide) (by decide) (by decide) (by decide)⟩

set_option maxRecDepth 100000 in
theorem registry_fits :
    ∀ p ∈ Registry, ∃ tab ∈ p.freqtab,
      (∃ f ∈ tab, f.ID = 0) ∧ idEntries tab = realEntries tab ∧
      1 ≤ (idEntries tab).length ∧ (idEntries tab).length ≤ 16 ∧
      ∀ f ∈ idEntries tab, f.MHz < 10000 := by
  decide

set_option maxRecDepth 100000 in
theorem registry_enumerable :
    ∀ p ∈ Registry, ∃ t ∈ p.freqtab,
      t = realEntries t ++ [{ MHz := 0, ID := 0 }] ∧
      (∀ f ∈ realEntries t, f.ID ≠ 0) ∧
      1 ≤ (realEntries t).length ∧ (realEntries t).length ≤ 16 ∧
      ∀ f ∈ realEntries t, f.MHz < 10000 := by
  decide

/-- C14, as stated, fails: a table with between 1 and 16 real entries below
10000 MHz may leave the loop without a text at all.  (a) `tab_no_end` has one
real entry and a terminator with a Code other than 0: the scan for `ID = 0` at
line 728 leaves the array.  (b) `tab_head_zero` has one real entry, with
Code 0: the scan stops on it and `f--` leaves the array at its head. -/
theorem C14_counterexample :
    (FrequencyTable tab_no_end ∧ (realEntries tab_no_end).length = 1 ∧
      (∀ f ∈ realEntries tab_no_end, f.MHz < 10000) ∧
      (∀ f ∈ tab_no_end, f.ID ≠ 0) ∧ scan_end tab_no_end = none ∧
      regenerate tab_no_end = none) ∧
    (FrequencyTable tab_head_zero ∧ (realEntries tab_head_zero).length = 1 ∧
      (∀ f ∈ realEntries tab_head_zero, f.MHz < 10000) ∧
      scan_end tab_head_zero = some 0 ∧
      regenerate tab_head_zero = none) := by
  decide

/-- C14, amended: for every table whose real entries all have a non-zero Code
and are followed by a terminator with Code 0, with between 1 and 16 real
entries, each below 10000 MHz, the generation loop produces a text of at most
79 characters, and every piece it emits, the digits with or without the leading
space, has at most 5 characters; and every table of the Registry is such a
table. -/
theorem C14_enumerator_fits (tab : List freq_info)
    (hsent : ∃ z rest, tab = realEntries tab ++ z :: rest ∧ z.ID = 0)
    (hcode : ∀ f ∈ realEntries tab, f.ID ≠ 0)
    (h1 : 1 ≤ (realEntries tab).length) (h16 : (realEntries tab).length ≤ 16)
    (hm : ∀ f ∈ realEntries tab, f.MHz < 10000) :
    (∃ text, regenerate tab = some text ∧ text.length ≤ 79) ∧
    (∀ f ∈ realEntries tab,
      (sprintf_d f.MHz).length ≤ 5 ∧ (' ' :: sprintf_d f.MHz).length ≤ 5) ∧
    (∀ p ∈ Registry, ∃ t ∈ p.freqtab,
      (∃ z rest, t = realEntries t ++ z :: rest ∧ z.ID = 0) ∧
      (∀ f ∈ realEntries t, f.ID ≠ 0) ∧
      1 ≤ (realEntries t).length ∧ (realEntries t).length ≤ 16 ∧
      ∀ f ∈ realEntries t, f.MHz < 10000) := by
  obtain ⟨heq, hend⟩ := idEntries_of_sentinel tab hsent hcode
  have hreg := regenerate_eq tab hend (by rw [heq]; exact h1) (by rw [heq]; exact h16)
    (by rw [heq]; exact hm)
  rw [heq] at hreg
  refine ⟨⟨_, hreg, ?_⟩, ?_, ?_⟩
  · have := render_length (realEntries tab) h1 hm
    omega
  · intro f hf
    have := digits_length_le _ (hm f hf)
    simp only [sprintf_d, List.length_cons]
    omega
  · intro p hp
    obtain ⟨t, ht, hshape, hc, hlen1, hlen16, hmhz⟩ := registry_enumerable p hp
    exact ⟨t, ht, ⟨{ MHz := 0, ID := 0 }, [], hshape, rfl⟩, hc, hlen1, hlen16, hmhz⟩

theorem C14_witness :
    (∃ z rest, PM_765A_90 = realEntries PM_765A_90 ++ z :: rest ∧ z.ID = 0) ∧
    (∀ f ∈ realEntries PM_765A_90, f.ID ≠ 0) ∧
    1 ≤ (realEntries PM_765A_90).length ∧ (realEntries PM_765A_90).length ≤ 16 ∧
    (∀ f ∈ realEntries PM_765A_90, f.MHz < 10000) ∧
    ((∃ text, regenerate PM_765A_90 = some text ∧ text.length ≤ 79) ∧
    (∀ f ∈ realEntries PM_765A_90,
      (sprintf_d f.MHz).length ≤ 5 ∧ (' ' :: sprintf_d f.MHz).length ≤ 5) ∧
    (∀ p ∈ Registry, ∃ t ∈ p.freqtab,
      (∃ z rest, t = realEntries t ++ z :: rest ∧ z.ID = 0) ∧
      (∀ f ∈ realEntries t, f.ID ≠ 0) ∧
      1 ≤ (realEntries t).length ∧ (realEntries t).length ≤ 16 ∧
      ∀ f ∈ realEntries t, f.MHz < 10000)) :=
  ⟨⟨{ MHz := 0, ID := 0 }, [], by decide, by decide⟩, by decide, by decide, by decide,
    by decide,
    C14_enumerator_fits PM_765A_90 ⟨{ MHz := 0, ID := 0 }, [], by decide, by decide⟩
      (by decide) (by decide) (by decide) (by decide)⟩

/-! ## Claims on the state machine -/

/-- C16, as stated, fails: from the initial state, a successful `findcpu`
followed by a read while the status register reports no Code of the table
ends with ActiveState none and `est_frequencies` still holding the list. -/
theorem C16_counterexample :
    st_off.freq_list = none ∧ st_off.est_frequencies = [] ∧
    (runCore st_off
      [{ perf_status := msr_PM17, perf_ctl := 0, tc_name := i8254,
         call := Call.identify GenuineIntel msr_PM17 100 },
       { perf_status := 0, perf_ctl := 0, tc_name := i8254,
         call := Call.sysctl { newptr := none, out_err := 0 } }]).map
      (fun s => (s.freq_list, s.est_frequencies)) =
      some (none, ['6', '0', '0', ' ', '8', '0', '0', ' ', '1', '0', '0', '0', ' ',
        '1', '2', '0', '0', ' ', '1', '4', '0', '0', ' ', '1', '7', '0', '0']) := by
  decide

/-- C16, amended: in every state reached from an initial state (ActiveState
none, `est_frequencies` empty) by a sequence of calls of `findcpu` and of the
handler, either ActiveState is none and `est_frequencies` is empty (no
identification has succeeded), or `est_frequencies` is the rendering of the
table of a Registry entry, and ActiveState is that table or none: a
self-disable keeps the text. -/
theorem C16_diagnostic_string (s0 s : State) (steps : List CoreStep)
    (h0 : s0.freq_list = none ∧ s0.est_frequencies = [])
    (hrun : runCore s0 steps = some s) :
    (s.freq_list = none ∧ s.est_frequencies = []) ∨
    ∃ p ∈ Registry, ∃ tab, p.freqtab = some tab ∧
      regenerate tab = some s.est_frequencies ∧
      (s.freq_list = some tab ∨ s.freq_list = none) :=
  runCore_inv steps s0 s hrun (Or.inl h0)

theorem C16_witness :
    (st_off.freq_list = none ∧ st_off.est_frequencies = []) ∧
    runCore st_off
      [{ perf_status := msr_PM17, perf_ctl := 0xabcd00001131, tc_name := i8254,
         call := Call.identify GenuineIntel msr_PM17 100 }] = some st_on ∧
    ((st_on.freq_list = none ∧ st_on.est_frequencies = []) ∨
      ∃ p ∈ Registry, ∃ tab, p.freqtab = some tab ∧
        regenerate tab = some st_on.est_frequencies ∧
        (st_on.freq_list = some tab ∨ st_on.freq_list = none)) :=
  ⟨by decide, by decide,
    C16_diagnostic_string st_off st_on
      [{ perf_status := msr_PM17, perf_ctl := 0xabcd00001131, tc_name := i8254,
         call := Call.identify GenuineIntel msr_PM17 100 }] (by decide) (by decide)⟩

set_option maxRecDepth 100000 in
/-- C17: no two entries of the Registry have the same key (vendor, CombinedID,
BUSCLK); every CombinedID of the Registry is non-zero, so that `ESTprocs` is its
43 entries followed by the terminator; and the only Registry entry that has the
key of a Registry entry `r` is `r` itself. -/
theorem C17_registry_keys_unique :
    Registry.Pairwise
      (fun a b => ¬ (a.vendor = b.vendor ∧ a.ID = b.ID ∧ a.BUSCLK = b.BUSCLK)) ∧
    (∀ p ∈ Registry, p.ID ≠ 0) ∧
    Registry.length = 43 ∧
    ESTprocs = Registry ++ [{ vendor := none, ID := 0, BUSCLK := 0, freqtab := none }] ∧
    (∀ r ∈ Registry, ∀ v ∈ r.vendor, ∀ p ∈ Registry,
      keyMatch v r.ID r.BUSCLK p = true → p = r) := by
  decide

/-- C18: in an Enabled state whose status register reports the Code of no real
entry of the active table, SetFrequency of any MHz, under any timekeeping
source ("TSC" included), returns EINVAL and clears ActiveState; the only
register access is the read of the status register, and the control register
is not written. -/
theorem C18_set_frequency_bad_status (s : State) (tab : List freq_info) (requestedMHz : Int)
    (hen : Enabled s tab)
    (hno : ∀ f ∈ realEntries tab, f.ID ≠ s.perf_status % 65536) :
    SetFrequency s requestedMHz = some ({ err := EINVAL, oldval := none },
      { s with freq_list := none, msr_ops := s.msr_ops ++ [MsrOp.rd MSR_PERF_STATUS] }) :=
  sysctl_bad_status s _ tab hen.1 hen.2.1 hno

theorem C18_witness :
    Enabled { st_on with perf_status := 0x0610113100001234, tc_name := TSC } PM17_130 ∧
    (∀ f ∈ realEntries PM17_130,
      f.ID ≠ ({ st_on with perf_status := 0x0610113100001234, tc_name := TSC } : State).perf_status
        % 65536) ∧
    SetFrequency { st_on with perf_status := 0x0610113100001234, tc_name := TSC } 1000 =
      some ({ err := EINVAL, oldval := none },
        { st_on with perf_status := 0x0610113100001234, tc_name := TSC, freq_list := none,
                     msr_ops := st_on.msr_ops ++ [MsrOp.rd MSR_PERF_STATUS] }) :=
  ⟨by decide, by decide,
    C18_set_frequency_bad_status
      { st_on with perf_status := 0x0610113100001234, tc_name := TSC } PM17_130 1000
      (by decide) (by decide)⟩

/-- C19: a call of the core never changes the status register.  `findcpu`
executes no register instruction and leaves the control register as it was.
A call of the handler that carries no new value, or that fails, leaves the
control register as it was and executes at most the read of the status
register.  A call of the handler with a new value that returns 0 executes the
read of the status register, the read of the control register and one write,
to the control register.  A call of the handler that returns 0 leaves
ActiveState as it was. -/
theorem C19_register_frame (s s1 : State) (c : Call) (e : Int)
    (h : callCore s c = some (e, s1)) :
    s1.perf_status = s.perf_status ∧
    (∀ vendor msr BUSCLK, c = Call.identify vendor msr BUSCLK →
      s1.perf_ctl = s.perf_ctl ∧ s1.msr_ops = s.msr_ops) ∧
    (∀ req, c = Call.sysctl req →
      ((req.newptr = none ∨ e ≠ 0) →
        s1.perf_ctl = s.perf_ctl ∧
        (s1.msr_ops = s.msr_ops ∨ s1.msr_ops = s.msr_ops ++ [MsrOp.rd MSR_PERF_STATUS])) ∧
      ((req.newptr ≠ none ∧ e = 0) →
        s1.msr_ops = s.msr_ops ++ [MsrOp.rd MSR_PERF_STATUS, MsrOp.rd MSR_PERF_CTL,
          MsrOp.wr MSR_PERF_CTL s1.perf_ctl]) ∧
      (e = 0 → s1.freq_list = s.freq_list)) := by
  cases c with
  | identify vendor msr BUSCLK =>
    simp only [callCore] at h
    rcases findcpu_frame _ _ _ _ _ _ h with ⟨-, hs1⟩ | ⟨-, p, hp, tab, text, -, -, hs1⟩
    · subst hs1
      simp
    · subst hs1
      simp
  | sysctl req =>
    simp only [callCore] at h
    cases hh : est_sysctl_mhz s req with
    | none => simp [hh] at h
    | some res =>
      obtain ⟨r, s2⟩ := res
      simp only [hh, Option.some.injEq, Prod.mk.injEq] at h
      obtain ⟨he, hs2⟩ := h
      subst hs2 he
      obtain ⟨hst, -, -, hok, hfail, hsucc⟩ := sysctl_frame _ _ _ _ hh
      refine ⟨hst, by simp, ?_⟩
      intro req' hreq
      simp only [Call.sysctl.injEq] at hreq
      subst hreq
      refine ⟨hfail, ?_, hok⟩
      intro hs
      obtain ⟨v, hv, hops⟩ := hsucc hs
      rw [hops, hv]

theorem C19_witness :
    callCore st_on (Call.sysctl { newptr := some (0, 1000), out_err := 0 }) =
      some (0, st_on_1000) ∧
    st_on_1000.perf_status = st_on.perf_status ∧
    (∀ vendor msr BUSCLK,
      Call.sysctl { newptr := some (0, 1000), out_err := 0 } = Call.identify vendor msr BUSCLK →
      st_on_1000.perf_ctl = st_on.perf_ctl ∧ st_on_1000.msr_ops = st_on.msr_ops) ∧
    (∀ req, Call.sysctl { newptr := some (0, 1000), out_err := 0 } = Call.sysctl req →
      ((req.newptr = none ∨ (0 : Int) ≠ 0) →
        st_on_1000.perf_ctl = st_on.perf_ctl ∧
        (st_on_1000.msr_ops = st_on.msr_ops ∨
          st_on_1000.msr_ops = st_on.msr_ops ++ [MsrOp.rd MSR_PERF_STATUS])) ∧
      ((req.newptr ≠ none ∧ (0 : Int) = 0) →
        st_on_1000.msr_ops = st_on.msr_ops ++ [MsrOp.rd MSR_PERF_STATUS, MsrOp.rd MSR_PERF_CTL,
          MsrOp.wr MSR_PERF_CTL st_on_1000.perf_ctl]) ∧
      ((0 : Int) = 0 → st_on_1000.freq_list = st_on.freq_list)) :=
  ⟨by decide,
    C19_register_frame st_on st_on_1000
      (Call.sysctl { newptr := some (0, 1000), out_err := 0 }) 0 (by decide)⟩

theorem shl8_eq (q : Int) : q <<< 8 = q * 256 := by
  have := Int.shiftLeft_eq_mul_pow q 8
  simpa using this

theorem shr4_bounds (x : Int) (h : 0 ≤ x) : 0 ≤ x >>> 4 ∧ x >>> 4 ≤ x := by
  obtain ⟨n, rfl⟩ := Int.eq_ofNat_of_zero_le h
  have h4 : ((n : Int) >>> ((4 : Nat) : Int)) = ((n >>> 4 : Nat) : Int) :=
    Int.shiftRight_coe_nat n 4
  have h4' : ((n : Int) >>> (4 : Int)) = ((n >>> 4 : Nat) : Int) := h4
  rw [h4', Nat.shiftRight_eq_div_pow]
  have : n / 2 ^ 4 ≤ n := Nat.div_le_self n _
  omega

theorem toI32_id (x : Int) (h1 : -2147483648 ≤ x) (h2 : x < 2147483648) : toI32 x = x := by
  unfold toI32
  omega

/-- C20, as stated, fails in two ways.  For MHz = 1000, mv = 600 and
BUSCLK = 100 the macro gives `(10 << 8) + ((600 - 700) >> 4) = 2553`, the
formula of the specification gives `(10 << 8) + 0 = 2560`.  For
MHz = 2147483647, mv = 1484 and BUSCLK = 1 the shift leaves the range of `int`
and the macro gives -207, the formula gives 549755813681. -/
theorem C20_counterexample :
    ((0 : Int) ≤ 1000 ∧ (0 : Int) ≤ 600 ∧ (0 : Int) < 100 ∧
      ID16 1000 600 100 = 2553 ∧ spec_Code 1000 600 100 = 2560 ∧
      ID16 1000 600 100 ≠ spec_Code 1000 600 100) ∧
    ((0 : Int) ≤ 2147483647 ∧ (0 : Int) ≤ 1484 ∧ (0 : Int) < 1 ∧
      ID16 2147483647 1484 1 = -207 ∧ spec_Code 2147483647 1484 1 = 549755813681 ∧
      ID16 2147483647 1484 1 ≠ spec_Code 2147483647 1484 1) := by
  decide

/-- C20, amended: for every MHz ≥ 0, every BUSCLK > 0 and every `int`
millivolt value that is 0 or at least 700, such that
`((MHz / BUSCLK) << 8) + quantize(mv)` is within the range of `int` (below
2^31), `ID16(MHz, mv, BUSCLK)` equals `((MHz / BUSCLK) << 8) + quantize(mv)`,
where `quantize(mv) = (mv - 700) >> 4` for mv ≥ 700 and `quantize(0) = 0`. -/
theorem C20_ID16_formula (MHz mv BUSCLK : Int)
    (hMHz : 0 ≤ MHz) (hB : 0 < BUSCLK) (hmv : mv = 0 ∨ 700 ≤ mv)
    (hmv32 : mv < 2147483648)
    (hfit : spec_Code MHz mv BUSCLK < 2147483648) :
    ID16 MHz mv BUSCLK = spec_Code MHz mv BUSCLK := by
  have hdiv : Int.tdiv MHz BUSCLK = MHz / BUSCLK := Int.tdiv_eq_ediv hMHz (le_of_lt hB)
  have hq0 : 0 ≤ MHz / BUSCLK := Int.ediv_nonneg hMHz (le_of_lt hB)
  have hshl := shl8_eq (MHz / BUSCLK)
  rcases hmv with h0 | h700
  · subst h0
    have hs : spec_Code MHz 0 BUSCLK = (MHz / BUSCLK) <<< 8 := by
      simp [spec_Code, spec_quantize]
    rw [hs] at hfit ⊢
    have e1 : toI32 (MHz / BUSCLK) = MHz / BUSCLK := toI32_id _ (by omega) (by omega)
    have e2 : toI32 ((MHz / BUSCLK) <<< 8) = (MHz / BUSCLK) <<< 8 :=
      toI32_id _ (by omega) (by omega)
    simp [ID16, hdiv, e1, e2]
  · have hne : mv ≠ 0 := by omega
    have hb := shr4_bounds (mv - 700) (by omega)
    have hs : spec_Code MHz mv BUSCLK = (MHz / BUSCLK) <<< 8 + (mv - 700) >>> 4 := by
      simp [spec_Code, spec_quantize, h700]
    rw [hs] at hfit ⊢
    have e1 : toI32 (MHz / BUSCLK) = MHz / BUSCLK := toI32_id _ (by omega) (by omega)
    have e2 : toI32 ((MHz / BUSCLK) <<< 8) = (MHz / BUSCLK) <<< 8 :=
      toI32_id _ (by omega) (by omega)
    have e3 : toI32 (mv - 700) = mv - 700 := toI32_id _ (by omega) (by omega)
    have e4 : toI32 ((MHz / BUSCLK) <<< 8 + (mv - 700) >>> 4) =
        (MHz / BUSCLK) <<< 8 + (mv - 700) >>> 4 := toI32_id _ (by omega) (by omega)
    simp only [ID16, hdiv, e1, e2, hne, ne_eq, not_false_eq_true, if_true, e3, e4]

theorem C20_witness :
    (0 : Int) ≤ 1700 ∧ (0 : Int) < 100 ∧ ((1484 : Int) = 0 ∨ (700 : Int) ≤ 1484) ∧
    (1484 : Int) < 2147483648 ∧ spec_Code 1700 1484 100 < 2147483648 ∧
    ID16 1700 1484 100 = spec_Code 1700 1484 100 :=
  ⟨by decide, by decide, by decide, by decide, by decide,
    C20_ID16_formula 1700 1484 100 (by decide) (by decide) (by decide) (by decide) (by decide)⟩

/-! ## Claims on the terminators and the Code fields -/

/-- Under `ID = 0 ↔ MHz = 0` the scan of `findcpu` and the status scan of the
handler leave the table at the same entry. -/
theorem scans_agree (code : Nat) (tab : List freq_info)
    (h : ∀ f ∈ tab, f.ID = 0 ↔ f.MHz = 0) :
    scan_setpoint code tab = scan_status code tab := by
  induction tab with
  | nil => rfl
  | cons a rest ih =>
    have ha := h a (by simp)
    have hrest := ih (fun f hf => h f (by simp [hf]))
    by_cases h0 : a.MHz = 0
    · simp [scan_setpoint, scan_status, h0, ha.mpr h0]
    · have h1 : a.ID ≠ 0 := fun hh => h0 (ha.mp hh)
      simp [scan_setpoint, scan_status, h0, h1, hrest]

set_option maxRecDepth 100000 in
theorem registry_shape :
    ∀ p ∈ Registry, ∃ tab ∈ p.freqtab, tab = realEntries tab ++ [{ MHz := 0, ID := 0 }] := by
  decide

/-- C21: in the table of every Registry entry, an entry has ID = 0 if and only
if it has MHz = 0, and that is the last entry only; the IDs of the real entries
are pairwise distinct, so two real entries with the same ID are the same entry;
the entries before the `ID = 0` terminator are the entries before the `MHz = 0`
terminator; and for every code the scan of `findcpu` (stopped by ID = 0) and
the status scan of the handler (stopped by MHz = 0) leave the table at the same
entry. -/
theorem C21_terminators_agree (p : cpu_info) (hp : p ∈ Registry) :
    ∃ tab ∈ p.freqtab,
      (∀ f ∈ tab, f.ID = 0 ↔ f.MHz = 0) ∧
      tab = realEntries tab ++ [{ MHz := 0, ID := 0 }] ∧
      (realEntries tab).Pairwise (fun a b => a.ID ≠ b.ID) ∧
      (∀ f ∈ realEntries tab, ∀ g ∈ realEntries tab, f.ID = g.ID → f = g) ∧
      idEntries tab = realEntries tab ∧
      (∀ code, scan_setpoint code tab = scan_status code tab) := by
  obtain ⟨-, -, -, -, tab, htab, hok⟩ := registry_ok p hp
  obtain ⟨tab', htab', hshape⟩ := registry_shape p hp
  have heq : tab' = tab := by
    have h1 : p.freqtab = some tab := htab
    have h2 : p.freqtab = some tab' := htab'
    rw [h1] at h2
    simpa using h2.symm
  subst heq
  refine ⟨tab', htab, hok.2.2.1, hshape, hok.2.1, ?_, idEntries_eq_realEntries tab' hok.2.2.1, ?_⟩
  · intro f hf g hg hfg
    exact distinct_unique (fun x : freq_info => x.ID) (realEntries tab') f g hok.2.1 hf hg hfg
  · intro code
    exact scans_agree code tab' hok.2.2.1

theorem C21_witness :
    INTEL_100 PM_738_90 1400 1116 600 988 ∈ Registry ∧
    ∃ tab ∈ (INTEL_100 PM_738_90 1400 1116 600 988).freqtab,
      (∀ f ∈ tab, f.ID = 0 ↔ f.MHz = 0) ∧
      tab = realEntries tab ++ [{ MHz := 0, ID := 0 }] ∧
      (realEntries tab).Pairwise (fun a b => a.ID ≠ b.ID) ∧
      (∀ f ∈ realEntries tab, ∀ g ∈ realEntries tab, f.ID = g.ID → f = g) ∧
      idEntries tab = realEntries tab ∧
      (∀ code, scan_setpoint code tab = scan_status code tab) :=
  ⟨by decide, C21_terminators_agree (INTEL_100 PM_738_90 1400 1116 600 988) (by decide)⟩

theorem range_succ_reverse (i : Nat) :
    (List.range (i + 1 + 1)).reverse = (i + 1) :: (List.range (i + 1)).reverse := by
  rw [List.range_succ, List.reverse_append]
  rfl

/-- The loop with the record reads the indices `i`, `i - 1`, ..., `0` and
produces the text of the loop. -/
theorem gen_loop_log_eq (tab : List freq_info) :
    ∀ (i : Nat) (buf : List Char),
      gen_loop_log tab i buf =
        (gen_loop tab i buf).map (fun text => (text, (List.range (i + 1)).reverse)) := by
  intro i
  induction i with
  | zero =>
    intro buf
    cases h : emit_freq tab 0 buf with
    | none => simp [gen_loop_log, gen_loop, h]
    | some buf1 =>
      simp only [gen_loop_log, gen_loop, h, Option.map_some']
      rfl
  | succ i ih =>
    intro buf
    cases h : emit_freq tab (i + 1) buf with
    | none => simp [gen_loop_log, gen_loop, h]
    | some buf1 =>
      simp only [gen_loop_log, gen_loop, h, ih buf1, range_succ_reverse]
      cases gen_loop tab i buf1 <;> simp

/-- The first scan of `findcpu` leaves `ESTprocs` at the terminator or at an
entry of the Registry. -/
theorem scan_procs_mem (vendor : List Char) (ID BUSCLK : Nat) (p : cpu_info)
    (h : scan_procs vendor ID BUSCLK ESTprocs = some p) (hid : p.ID ≠ 0) :
    p ∈ Registry := by
  obtain ⟨z, hz, hscan⟩ := scan_procs_ESTprocs vendor ID BUSCLK
  rw [hscan] at h
  cases hfind : Registry.find? (keyMatch vendor ID BUSCLK) with
  | none =>
    simp only [hfind, Option.getD_none, Option.some.injEq] at h
    subst h
    exact absurd hz hid
  | some q =>
    simp only [hfind, Option.getD_some, Option.some.injEq] at h
    subst h
    exact List.mem_of_find?_eq_some hfind

/-- C22: whenever `findcpu` reaches the generation loop, that is, its first
scan has left `ESTprocs` at an entry `p` with `ID ≠ 0` and its second scan has
left the table of `p` at an entry with `ID ≠ 0`, the table has at least one
real entry; the `ID = 0` terminator is at index `n + 1`, the number of real
entries, so the walk starts at the valid index `n`; it reads the indices `n`,
`n - 1`, ..., `0` and no other, each the index of a real entry, the last one
the head of the table; and it ends with a text. -/
theorem C22_backward_walk (vendor : List Char) (msr BUSCLK : Nat) (p : cpu_info)
    (tab : List freq_info) (f : freq_info)
    (hp : scan_procs vendor ((msr >>> 32) % 4294967296) BUSCLK ESTprocs = some p)
    (hid : p.ID ≠ 0) (htab : p.freqtab = some tab)
    (hf : scan_setpoint ((msr &&& 0xffff) % 65536) tab = some f) (hf0 : f.ID ≠ 0) :
    1 ≤ (realEntries tab).length ∧
    f ∈ realEntries tab ∧
    ∃ n text, scan_end tab = some (n + 1) ∧ n + 1 = (realEntries tab).length ∧
      gen_loop_log tab n [] = some (text, (List.range (n + 1)).reverse) ∧
      (∀ i ∈ (List.range (n + 1)).reverse,
        i < (realEntries tab).length ∧ tab.get? i = (realEntries tab).get? i) ∧
      (List.range (n + 1)).reverse.head? = some n ∧
      (List.range (n + 1)).reverse.getLast? = some 0 ∧
      regenerate tab = some text := by
  have hreg := scan_procs_mem vendor _ BUSCLK p hp hid
  obtain ⟨tab', htab', hend, heq, h1, h16, hm⟩ := registry_fits p hreg
  have hsame : tab' = tab := by
    have h2 : p.freqtab = some tab' := htab'
    rw [htab] at h2
    simpa using h2.symm
  subst hsame
  have hfmem : f ∈ realEntries tab' := by
    rw [scan_setpoint_eq] at hf
    have := (scanG_hit _ _ tab' f hf (by simpa using hf0)).1
    rw [← heq]
    exact this
  obtain ⟨n, hn⟩ : ∃ n, (idEntries tab').length = n + 1 :=
    ⟨(idEntries tab').length - 1, by omega⟩
  have hregen := regenerate_eq tab' hend h1 h16 hm
  have hloop : gen_loop tab' n [] = some (render (idEntries tab')) := by
    have := hregen
    simp only [regenerate, scan_end_eq tab' hend, hn] at this
    exact this
  refine ⟨by rw [← heq]; exact h1, hfmem, n, render (idEntries tab'), ?_, ?_, ?_, ?_, ?_, ?_,
    hregen⟩
  · rw [scan_end_eq tab' hend, hn]
  · rw [← heq, hn]
  · rw [gen_loop_log_eq, hloop]
    rfl
  · intro i hi
    have hi' : i < n + 1 := by
      simpa using hi
    have hlt : i < (idEntries tab').length := by omega
    refine ⟨by rw [← heq]; exact hlt, ?_⟩
    rw [← heq]
    exact get_idEntries tab' i hlt
  · rw [List.range_succ, List.reverse_append]
    rfl
  · cases n with
    | zero => rfl
    | succ m =>
      rw [List.getLast?_reverse, List.range_succ_eq_map]
      rfl

theorem C22_witness :
    scan_procs GenuineIntel ((msr_PM17 >>> 32) % 4294967296) 100 ESTprocs =
      some (INTEL_100 PM17_130 1700 1484 600 956) ∧
    (INTEL_100 PM17_130 1700 1484 600 956).ID ≠ 0 ∧
    (INTEL_100 PM17_130 1700 1484 600 956).freqtab = some PM17_130 ∧
    scan_setpoint ((msr_PM17 &&& 0xffff) % 65536) PM17_130 = some (FREQ_INFO_100 1700 1484) ∧
    (FREQ_INFO_100 1700 1484).ID ≠ 0 ∧
    (1 ≤ (realEntries PM17_130).length ∧
    FREQ_INFO_100 1700 1484 ∈ realEntries PM17_130 ∧
    ∃ n text, scan_end PM17_130 = some (n + 1) ∧ n + 1 = (realEntries PM17_130).length ∧
      gen_loop_log PM17_130 n [] = some (text, (List.range (n + 1)).reverse) ∧
      (∀ i ∈ (List.range (n + 1)).reverse,
        i < (realEntries PM17_130).length ∧
        PM17_130.get? i = (realEntries PM17_130).get? i) ∧
      (List.range (n + 1)).reverse.head? = some n ∧
      (List.range (n + 1)).reverse.getLast? = some 0 ∧
      regenerate PM17_130 = some text) :=
  ⟨by decide, by decide, by decide, by decide, by decide,
    C22_backward_walk GenuineIntel msr_PM17 100 (INTEL_100 PM17_130 1700 1484 600 956)
      PM17_130 (FREQ_INFO_100 1700 1484) (by decide) (by decide) (by decide) (by decide)
      (by decide)⟩

set_option maxRecDepth 100000 in
/-- C23: the tables of the Registry are the `FREQ_INFO_100` lines with the
arguments listed in `FREQ_INFO_args`, every bus clock being 100; and for every
line `(MHz, mv)` with `MHz ≠ 0`: the value of `ID16(MHz, mv, 100)` is below
2^16, so the stored Code is that value; the low byte of the Code is
`(mv - 700) >> 4`, which is below 256; and the high byte of the Code times 100
is the MHz of the entry. -/
theorem C23_code_fields :
    Registry.map (fun p => p.freqtab) =
      FREQ_INFO_args.map (fun l => some (l.map (fun a => FREQ_INFO_100 a.1 a.2))) ∧
    (∀ p ∈ Registry, p.BUSCLK = 100) ∧
    (∀ l ∈ FREQ_INFO_args, ∀ a ∈ l, a.1 ≠ 0 →
      0 ≤ ID16 a.1 a.2 100 ∧ ID16 a.1 a.2 100 < 65536 ∧
      ((FREQ_INFO_100 a.1 a.2).ID : Int) = ID16 a.1 a.2 100 ∧
      (FREQ_INFO_100 a.1 a.2).ID < 65536 ∧
      700 ≤ a.2 ∧
      (((FREQ_INFO_100 a.1 a.2).ID % 256 : Nat) : Int) = (a.2 - 700) >>> 4 ∧
      (a.2 - 700) >>> 4 < 256 ∧
      ((FREQ_INFO_100 a.1 a.2).ID >>> 8) * 100 = (FREQ_INFO_100 a.1 a.2).MHz ∧
      ((FREQ_INFO_100 a.1 a.2).MHz : Int) = a.1) := by
  decide

end EstPM
